import Mathlib

/-!
# Verification of the youtube-tracker sync backend

Shallow embedding of the batch-sync endpoint (`app/api/routes/sync.py`),
its payload validation (`app/api/deps.py`), and the weekly-comparison
aggregation (`app/api/routes/stats.py`).

Conventions of the embedding:
* an opaque per-installation user identity (a UUID in the source) is a `Nat`;
* client epoch-millisecond timestamps are `Int`; the store's `datetime`
  values are `ℚ` seconds since the epoch, so `datetime.fromtimestamp(ms / 1000)`
  is exact rational division by 1000;
* Python `float` columns are modelled as `ℚ` (exact arithmetic; every
  concrete value exercised below is exactly representable);
* each relational table is a `List` of row structures in insertion order;
  `db.add` appends to the working table, `db.commit` publishes the working
  store, an exception path publishes the original store (rollback);
* fallible store round-trips (`db.execute`, `db.commit`) are counted, and a
  failure-injection parameter `failAt` makes the `failAt`-th such operation
  raise, modelling an unexpected store error mid-batch.
-/

namespace YoutubeTracker

/-- Opaque per-user identity (a UUID in the source). -/
abbrev UserId := Nat

/-- Server-side `datetime`, as rational seconds since the epoch. -/
abbrev Time := ℚ

/-- `datetime.fromtimestamp(ms / 1000)`: epoch milliseconds to server time. -/
def fromtimestampMs (ms : Int) : Time := (ms : ℚ) / 1000

/-- `datetime.fromtimestamp(x / 1000) if x else None`.
Python truthiness: both `None` and `0` take the `else None` branch. -/
def optTimeOfMs : Option Int → Option Time
  | some v => if v = 0 then none else some (fromtimestampMs v)
  | none => none

/-! ## Calendar dates (`datetime.date`) -/

/-- A calendar date (`datetime.date`). -/
structure Date where
  year : Nat
  month : Nat
  day : Nat
deriving DecidableEq, Repr

/-- Gregorian leap-year rule. -/
def isLeapYear (y : Nat) : Bool :=
  (y % 4 == 0 && y % 100 != 0) || y % 400 == 0

/-- Days in month `m` (1-based) of year `y`. -/
def daysInMonth (y m : Nat) : Nat :=
  [31, if isLeapYear y then 29 else 28, 31, 30, 31, 30, 31, 31, 30, 31, 30, 31].getD (m - 1) 0

/-- Parse a non-empty all-digit character list as a natural number. -/
def parseDigits (s : List Char) : Option Nat :=
  if s ≠ [] ∧ s.all (·.isDigit) then
    some (s.foldl (fun n c => n * 10 + (c.toNat - 48)) 0)
  else none

/-- Split a character list on `-` (the semantics of `str.split("-")` /
`String.splitOn "-"`, structurally). -/
def splitDash : List Char → List (List Char)
  | [] => [[]]
  | c :: cs =>
    if c = '-' then [] :: splitDash cs
    else
      match splitDash cs with
      | [] => [[c]]
      | g :: gs => (c :: g) :: gs

/-- `date.fromisoformat` on its canonical `YYYY-MM-DD` form: four-digit year,
two-digit month and day, all digits, month and day within calendar range.
Any other string is unparsable and raises `ValueError` in the source,
modelled here as `none`. -/
def Date.fromisoformat (s : String) : Option Date :=
  match splitDash s.data with
  | [ys, ms, ds] =>
    if ys.length = 4 ∧ ms.length = 2 ∧ ds.length = 2 then
      match parseDigits ys, parseDigits ms, parseDigits ds with
      | some y, some m, some d =>
        if 1 ≤ y ∧ 1 ≤ m ∧ m ≤ 12 ∧ 1 ≤ d ∧ d ≤ daysInMonth y m then
          some ⟨y, m, d⟩
        else none
      | _, _, _ => none
    else none
  | _ => none

/-- Days before month `m` in year `y`. -/
def daysBeforeMonth (y m : Nat) : Nat :=
  (List.range (m - 1)).foldl (fun a i => a + daysInMonth y (i + 1)) 0

/-- Proleptic-Gregorian day number (`date.toordinal`).  Date comparison and
`timedelta(days = k)` arithmetic in the source are reflected through this
strictly monotone day count. -/
def Date.toOrdinal (d : Date) : Int :=
  let y := d.year - 1
  (365 * y + y / 4 - y / 100 + y / 400 + daysBeforeMonth d.year d.month + d.day : Nat)

/-! ## Python numeric helpers -/

/-- Python `int(x)` on a real value: truncation toward zero. -/
def pyTrunc (q : ℚ) : Int :=
  if 0 ≤ q then q.floor else -((-q).floor)

/-- Round to the nearest integer, ties to even (Python `round` semantics on
exactly representable values). -/
def roundHalfEven (q : ℚ) : Int :=
  let f := q.floor
  let r := q - f
  if r < 1 / 2 then f
  else if 1 / 2 < r then f + 1
  else if f % 2 = 0 then f else f + 1

/-- Python `round(x, 1)`. -/
def pyRound1 (q : ℚ) : ℚ := (roundHalfEven (q * 10) : ℚ) / 10

/-! ## String sanitization (`app/api/deps.py`) -/

/-- `str.isprintable` per character.  Exact on ASCII and on the C1 control
block; other non-ASCII characters are treated as printable (the Unicode
separator/format categories are not modelled; no claim exercises them). -/
def pyIsPrintable (c : Char) : Bool :=
  if c.toNat < 0x20 then false
  else if c.toNat = 0x7f then false
  else if 0x80 ≤ c.toNat ∧ c.toNat ≤ 0x9f then false
  else true

/-- `sanitize_string`: drop non-printable characters except `\n`, `\r`, `\t`,
then truncate to `max_length` characters. -/
def sanitize_string (value : Option String) (max_length : Nat) : Option String :=
  match value with
  | none => none
  | some v =>
    some (((v.data.filter fun c => pyIsPrintable c || c = '\n' || c = '\r' || c = '\t').take
      max_length).asString)

/-- Python `str.startswith`, structurally on characters (the library
`String.startsWith` is extensionally the same but does not reduce in the
kernel). -/
def pyStartswith (s p : String) : Bool := p.data.isPrefixOf s.data

/-- `sanitize_url`: sanitize as a string capped at 2000 characters, then null
out any non-empty value that does not start with `http://` or `https://`
(Python truthiness: an empty string skips the scheme check). -/
def sanitize_url (value : Option String) : Option String :=
  match value with
  | none => none
  | some v =>
    match sanitize_string (some v) 2000 with
    | none => none
    | some url =>
      if url ≠ "" ∧ ¬(pyStartswith url "http://" || pyStartswith url "https://") then none
      else some url

/-! ## Settings (`app/config.py`) -/

/-- The payload-limit block of `Settings` (defaults from `config.py`). -/
structure Settings where
  max_request_size_mb : Nat := 5
  max_video_sessions_per_sync : Nat := 200
  max_events_per_sync : Nat := 1000

/-- `get_settings()` with default configuration. -/
def settings : Settings := {}

/-! ## Incoming payload schemas (`sync.py`, pydantic models)

Fields mirror the pydantic models one-for-one.  The numeric bound and
length annotations of `Field(...)` are enforced at request-parse time by
pydantic; only the `ProductiveUrlCreate` URL validator is claim-relevant
and is modelled explicitly (`ProductiveUrlCreate.build`). -/

/-- `VideoSessionCreate`. -/
structure VideoSessionCreate where
  id : String
  videoId : String
  title : Option String := none
  channel : Option String := none
  channelId : Option String := none
  durationSeconds : Int := 0
  watchedSeconds : Int := 0
  watchedPercent : Int := 0
  source : Option String := none
  sourcePosition : Option Int := none
  isShort : Bool := false
  playbackSpeed : ℚ := 1
  averageSpeed : Option ℚ := none
  category : Option String := none
  productivityRating : Option Int := none
  timestamp : Int
  startedAt : Int
  endedAt : Option Int := none
  ratedAt : Option Int := none
  seekCount : Int := 0
  pauseCount : Int := 0
  tabSwitchCount : Int := 0
  ledToAnotherVideo : Option Bool := none
  nextVideoSource : Option String := none
  intention : Option String := none
  matchedIntention : Option Bool := none

/-- `BrowserSessionCreate`. -/
structure BrowserSessionCreate where
  id : String
  startedAt : Int
  endedAt : Option Int := none
  entryPageType : Option String := none
  entryUrl : Option String := none
  entrySource : Option String := none
  triggerType : Option String := none
  totalDurationSeconds : Int := 0
  activeDurationSeconds : Int := 0
  backgroundSeconds : Int := 0
  pagesVisited : Int := 0
  videosWatched : Int := 0
  videosStartedNotFinished : Int := 0
  shortsCount : Int := 0
  totalScrollPixels : Int := 0
  thumbnailsHovered : Int := 0
  thumbnailsClicked : Int := 0
  pageReloads : Int := 0
  backButtonPresses : Int := 0
  recommendationClicks : Int := 0
  autoplayCount : Int := 0
  autoplayCancelled : Int := 0
  searchCount : Int := 0
  timeOnHomeSeconds : Int := 0
  timeOnWatchSeconds : Int := 0
  timeOnSearchSeconds : Int := 0
  timeOnShortsSeconds : Int := 0
  productiveVideos : Int := 0
  unproductiveVideos : Int := 0
  neutralVideos : Int := 0
  exitType : Option String := none
  searchQueries : List String := []

/-- `DailyStatsCreate`.  The two JSON-valued fields (`hourlySeconds`,
`topChannels`) are carried opaquely as association data. -/
structure DailyStatsCreate where
  date : String
  totalSeconds : Int := 0
  activeSeconds : Int := 0
  backgroundSeconds : Int := 0
  sessionCount : Int := 0
  avgSessionDurationSeconds : Int := 0
  firstCheckTime : Option String := none
  videoCount : Int := 0
  videosCompleted : Int := 0
  videosAbandoned : Int := 0
  shortsCount : Int := 0
  uniqueChannels : Int := 0
  searchCount : Int := 0
  recommendationClicks : Int := 0
  autoplayCount : Int := 0
  autoplayCancelled : Int := 0
  totalScrollPixels : Int := 0
  avgScrollVelocity : ℚ := 0
  thumbnailsHovered : Int := 0
  thumbnailsClicked : Int := 0
  pageReloads : Int := 0
  backButtonPresses : Int := 0
  tabSwitches : Int := 0
  productiveVideos : Int := 0
  unproductiveVideos : Int := 0
  neutralVideos : Int := 0
  promptsShown : Int := 0
  promptsAnswered : Int := 0
  interventionsShown : Int := 0
  interventionsEffective : Int := 0
  hourlySeconds : Option (List (Nat × Int)) := none
  topChannels : Option (List String) := none
  preSleepMinutes : Int := 0
  bingeSessions : Int := 0

/-- `ScrollEventCreate`. -/
structure ScrollEventCreate where
  type : String := "scroll"
  sessionId : String
  pageType : Option String := none
  timestamp : Int
  scrollY : Int
  scrollDepthPercent : Int
  viewportHeight : Int
  pageHeight : Int
  scrollVelocity : ℚ
  scrollDirection : String
  visibleVideoCount : Int := 0

/-- `ThumbnailEventCreate`. -/
structure ThumbnailEventCreate where
  type : String := "thumbnail"
  sessionId : String
  videoId : String
  videoTitle : Option String := none
  channelName : Option String := none
  pageType : Option String := none
  positionIndex : Int
  timestamp : Int
  hoverDurationMs : Int := 0
  previewPlayed : Bool := false
  previewWatchMs : Int := 0
  clicked : Bool := false
  titleCapsPercent : Int := 0
  titleLength : Int := 0

/-- `PageEventCreate`. -/
structure PageEventCreate where
  type : String := "page"
  sessionId : String
  eventType : String
  pageType : Option String := none
  pageUrl : Option String := none
  timestamp : Int
  fromPageType : Option String := none
  navigationMethod : Option String := none
  searchQuery : Option String := none
  searchResultsCount : Option Int := none
  timeOnPageMs : Option Int := none

/-- `VideoWatchEventCreate`. -/
structure VideoWatchEventCreate where
  type : String := "video_watch"
  sessionId : String
  watchSessionId : String
  videoId : String
  eventType : String
  timestamp : Int
  videoTimeSeconds : ℚ
  seekFromSeconds : Option ℚ := none
  seekToSeconds : Option ℚ := none
  seekDeltaSeconds : Option ℚ := none
  playbackSpeed : Option ℚ := none
  watchPercentAtAbandon : Option Int := none

/-- `RecommendationEventCreate`. -/
structure RecommendationEventCreate where
  type : String := "recommendation"
  sessionId : String
  location : String
  positionIndex : Int
  videoId : String
  videoTitle : Option String := none
  channelName : Option String := none
  action : String
  hoverDurationMs : Option Int := none
  timestamp : Int
  wasAutoplayNext : Bool := false
  autoplayCountdownStarted : Bool := false
  autoplayCancelled : Bool := false

/-- `InterventionEventCreate`. -/
structure InterventionEventCreate where
  type : String := "intervention"
  sessionId : String
  interventionType : String
  triggeredAt : Int
  triggerReason : Option String := none
  response : Option String := none
  responseAt : Option Int := none
  responseTimeMs : Option Int := none
  userLeftYoutube : Bool := false
  minutesUntilReturn : Option Int := none

/-- `MoodReportCreate`. -/
structure MoodReportCreate where
  timestamp : Int
  sessionId : String
  reportType : String
  mood : Int
  intention : Option String := none
  satisfaction : Option Int := none

/-- `ProductiveUrlCreate` (post-validation payload). -/
structure ProductiveUrlCreate where
  id : String
  url : String
  title : String
  addedAt : Int

/-- The `validate_url` field validator of `ProductiveUrlCreate`: raise unless
the value starts with `http://` or `https://`. -/
def ProductiveUrlCreate.validate_url (v : String) : Except String String :=
  if ¬(pyStartswith v "http://" || pyStartswith v "https://") then
    Except.error "URL must start with http:// or https://"
  else Except.ok v

/-- Pydantic parse of one `productiveUrls` item: the `Field` bounds
(`id ≤ 64` chars, `url ≤ 2000` chars, `title ≤ 255` chars, `addedAt ≥ 0`)
followed by the `validate_url` field validator.  Any error rejects the
whole request with a validation failure (HTTP 422). -/
def ProductiveUrlCreate.build (id url title : String) (addedAt : Int) :
    Except String ProductiveUrlCreate :=
  if id.length > 64 then Except.error "id: string too long"
  else if url.length > 2000 then Except.error "url: string too long"
  else if title.length > 255 then Except.error "title: string too long"
  else if addedAt < 0 then Except.error "addedAt: value below minimum"
  else
    match ProductiveUrlCreate.validate_url url with
    | Except.error e => Except.error e
    | Except.ok u => Except.ok ⟨id, u, title, addedAt⟩

/-- Parsing the `productiveUrls` collection of a request body: the first
item that fails validation rejects the entire request. -/
def parseProductiveUrls (items : List (String × String × String × Int)) :
    Except String (List ProductiveUrlCreate) :=
  items.mapM fun i => ProductiveUrlCreate.build i.1 i.2.1 i.2.2.1 i.2.2.2

/-- `SyncData`: the heterogeneous batch.  The `dailyStats` JSON map is a
key-ordered association list (Python `dict` preserves insertion order and
cannot hold duplicate keys; the embedding does not rely on key uniqueness). -/
structure SyncData where
  videoSessions : List VideoSessionCreate := []
  browserSessions : List BrowserSessionCreate := []
  dailyStats : List (String × DailyStatsCreate) := []
  scrollEvents : List ScrollEventCreate := []
  thumbnailEvents : List ThumbnailEventCreate := []
  pageEvents : List PageEventCreate := []
  videoWatchEvents : List VideoWatchEventCreate := []
  recommendationEvents : List RecommendationEventCreate := []
  interventionEvents : List InterventionEventCreate := []
  moodReports : List MoodReportCreate := []
  productiveUrls : List ProductiveUrlCreate := []

/-! ## Stored rows (`app/models/domain.py`, as constructed in `sync.py`)

Each row structure holds exactly the columns assigned by the corresponding
constructor call in `sync_all`; columns that the endpoint never reads or
writes (`id` primary keys, `synced_at` / `created_at` server defaults) are
omitted, as no claim mentions them. -/

/-- A `video_sessions` row. -/
structure VideoSessionRow where
  user_id : UserId
  ext_session_id : String
  video_id : String
  title : Option String
  channel : Option String
  channel_id : Option String
  duration_seconds : Int
  watched_seconds : Int
  watched_percent : Int
  category : Option String
  source : Option String
  source_position : Option Int
  is_short : Bool
  playback_speed : ℚ
  average_speed : Option ℚ
  seek_count : Int
  pause_count : Int
  tab_switch_count : Int
  productivity_rating : Option Int
  rated_at : Option Time
  intention : Option String
  matched_intention : Option Bool
  led_to_another_video : Option Bool
  next_video_source : Option String
  started_at : Time
  ended_at : Option Time
  timestamp : Time

/-- The `VideoSession(...)` constructor call in `sync_all`. -/
def mkVideoSessionRow (user : UserId) (s : VideoSessionCreate) : VideoSessionRow where
  user_id := user
  ext_session_id := s.id
  video_id := s.videoId
  title := s.title
  channel := s.channel
  channel_id := s.channelId
  duration_seconds := s.durationSeconds
  watched_seconds := s.watchedSeconds
  watched_percent := s.watchedPercent
  category := s.category
  source := s.source
  source_position := s.sourcePosition
  is_short := s.isShort
  playback_speed := s.playbackSpeed
  average_speed := s.averageSpeed
  seek_count := s.seekCount
  pause_count := s.pauseCount
  tab_switch_count := s.tabSwitchCount
  productivity_rating := s.productivityRating
  rated_at := optTimeOfMs s.ratedAt
  intention := s.intention
  matched_intention := s.matchedIntention
  led_to_another_video := s.ledToAnotherVideo
  next_video_source := s.nextVideoSource
  started_at := fromtimestampMs s.startedAt
  ended_at := optTimeOfMs s.endedAt
  timestamp := fromtimestampMs s.timestamp

/-- A `browser_sessions` row. -/
structure BrowserSessionRow where
  user_id : UserId
  ext_session_id : String
  started_at : Time
  ended_at : Option Time
  entry_page_type : Option String
  entry_url : Option String
  entry_source : Option String
  trigger_type : Option String
  total_duration_seconds : Int
  active_duration_seconds : Int
  background_seconds : Int
  pages_visited : Int
  videos_watched : Int
  videos_started_not_finished : Int
  shorts_count : Int
  total_scroll_pixels : Int
  thumbnails_hovered : Int
  thumbnails_clicked : Int
  page_reloads : Int
  back_button_presses : Int
  recommendation_clicks : Int
  autoplay_count : Int
  autoplay_cancelled : Int
  search_count : Int
  time_on_home_seconds : Int
  time_on_watch_seconds : Int
  time_on_search_seconds : Int
  time_on_shorts_seconds : Int
  productive_videos : Int
  unproductive_videos : Int
  neutral_videos : Int
  exit_type : Option String
  search_queries : List String

/-- The `BrowserSession(...)` constructor call in `sync_all`. -/
def mkBrowserSessionRow (user : UserId) (b : BrowserSessionCreate) : BrowserSessionRow where
  user_id := user
  ext_session_id := b.id
  started_at := fromtimestampMs b.startedAt
  ended_at := optTimeOfMs b.endedAt
  entry_page_type := b.entryPageType
  entry_url := b.entryUrl
  entry_source := b.entrySource
  trigger_type := b.triggerType
  total_duration_seconds := b.totalDurationSeconds
  active_duration_seconds := b.activeDurationSeconds
  background_seconds := b.backgroundSeconds
  pages_visited := b.pagesVisited
  videos_watched := b.videosWatched
  videos_started_not_finished := b.videosStartedNotFinished
  shorts_count := b.shortsCount
  total_scroll_pixels := b.totalScrollPixels
  thumbnails_hovered := b.thumbnailsHovered
  thumbnails_clicked := b.thumbnailsClicked
  page_reloads := b.pageReloads
  back_button_presses := b.backButtonPresses
  recommendation_clicks := b.recommendationClicks
  autoplay_count := b.autoplayCount
  autoplay_cancelled := b.autoplayCancelled
  search_count := b.searchCount
  time_on_home_seconds := b.timeOnHomeSeconds
  time_on_watch_seconds := b.timeOnWatchSeconds
  time_on_search_seconds := b.timeOnSearchSeconds
  time_on_shorts_seconds := b.timeOnShortsSeconds
  productive_videos := b.productiveVideos
  unproductive_videos := b.unproductiveVideos
  neutral_videos := b.neutralVideos
  exit_type := b.exitType
  search_queries := b.searchQueries

/-- A `daily_stats` row, primary key `(user_id, date)`. -/
structure DailyStatsRow where
  user_id : UserId
  date : Date
  total_seconds : Int
  active_seconds : Int
  background_seconds : Int
  session_count : Int
  avg_session_duration_seconds : Int
  first_check_time : Option String
  video_count : Int
  videos_completed : Int
  videos_abandoned : Int
  shorts_count : Int
  unique_channels : Int
  search_count : Int
  recommendation_clicks : Int
  autoplay_count : Int
  autoplay_cancelled : Int
  total_scroll_pixels : Int
  avg_scroll_velocity : ℚ
  thumbnails_hovered : Int
  thumbnails_clicked : Int
  page_reloads : Int
  back_button_presses : Int
  tab_switches : Int
  productive_videos : Int
  unproductive_videos : Int
  neutral_videos : Int
  prompts_shown : Int
  prompts_answered : Int
  interventions_shown : Int
  interventions_effective : Int
  hourly_seconds : Option (List (Nat × Int))
  top_channels : Option (List String)
  pre_sleep_minutes : Int
  binge_sessions : Int
  updated_at : Time

/-- The full column image of one `dailyStats` entry: the `insert(...).values`
column list, with `updated_at = now` (column default `utcnow` on insert, and
the explicit `set_` refresh on conflict — identical either way). -/
def mkDailyStatsRow (user : UserId) (d : Date) (s : DailyStatsCreate) (now : Time) :
    DailyStatsRow where
  user_id := user
  date := d
  total_seconds := s.totalSeconds
  active_seconds := s.activeSeconds
  background_seconds := s.backgroundSeconds
  session_count := s.sessionCount
  avg_session_duration_seconds := s.avgSessionDurationSeconds
  first_check_time := s.firstCheckTime
  video_count := s.videoCount
  videos_completed := s.videosCompleted
  videos_abandoned := s.videosAbandoned
  shorts_count := s.shortsCount
  unique_channels := s.uniqueChannels
  search_count := s.searchCount
  recommendation_clicks := s.recommendationClicks
  autoplay_count := s.autoplayCount
  autoplay_cancelled := s.autoplayCancelled
  total_scroll_pixels := s.totalScrollPixels
  avg_scroll_velocity := s.avgScrollVelocity
  thumbnails_hovered := s.thumbnailsHovered
  thumbnails_clicked := s.thumbnailsClicked
  page_reloads := s.pageReloads
  back_button_presses := s.backButtonPresses
  tab_switches := s.tabSwitches
  productive_videos := s.productiveVideos
  unproductive_videos := s.unproductiveVideos
  neutral_videos := s.neutralVideos
  prompts_shown := s.promptsShown
  prompts_answered := s.promptsAnswered
  interventions_shown := s.interventionsShown
  interventions_effective := s.interventionsEffective
  hourly_seconds := s.hourlySeconds
  top_channels := s.topChannels
  pre_sleep_minutes := s.preSleepMinutes
  binge_sessions := s.bingeSessions
  updated_at := now

/-- A `scroll_events` row. -/
structure ScrollEventRow where
  user_id : UserId
  session_id : String
  page_type : Option String
  timestamp : Time
  scroll_y : Int
  scroll_depth_percent : Int
  viewport_height : Int
  page_height : Int
  scroll_velocity : ℚ
  scroll_direction : String
  visible_video_count : Int

/-- The `ScrollEvent(...)` constructor call in `sync_all`. -/
def mkScrollEventRow (user : UserId) (e : ScrollEventCreate) : ScrollEventRow where
  user_id := user
  session_id := e.sessionId
  page_type := e.pageType
  timestamp := fromtimestampMs e.timestamp
  scroll_y := e.scrollY
  scroll_depth_percent := e.scrollDepthPercent
  viewport_height := e.viewportHeight
  page_height := e.pageHeight
  scroll_velocity := e.scrollVelocity
  scroll_direction := e.scrollDirection
  visible_video_count := e.visibleVideoCount

/-- A `thumbnail_events` row. -/
structure ThumbnailEventRow where
  user_id : UserId
  session_id : String
  video_id : String
  video_title : Option String
  channel_name : Option String
  page_type : Option String
  position_index : Int
  timestamp : Time
  hover_duration_ms : Int
  preview_played : Bool
  preview_watch_ms : Int
  clicked : Bool
  title_caps_percent : Int
  title_length : Int

/-- The `ThumbnailEvent(...)` constructor call in `sync_all`. -/
def mkThumbnailEventRow (user : UserId) (e : ThumbnailEventCreate) : ThumbnailEventRow where
  user_id := user
  session_id := e.sessionId
  video_id := e.videoId
  video_title := e.videoTitle
  channel_name := e.channelName
  page_type := e.pageType
  position_index := e.positionIndex
  timestamp := fromtimestampMs e.timestamp
  hover_duration_ms := e.hoverDurationMs
  preview_played := e.previewPlayed
  preview_watch_ms := e.previewWatchMs
  clicked := e.clicked
  title_caps_percent := e.titleCapsPercent
  title_length := e.titleLength

/-- A `page_events` row. -/
structure PageEventRow where
  user_id : UserId
  session_id : String
  event_type : String
  page_type : Option String
  page_url : Option String
  timestamp : Time
  from_page_type : Option String
  navigation_method : Option String
  search_query : Option String
  search_results_count : Option Int
  time_on_page_ms : Option Int

/-- The `PageEvent(...)` constructor call in `sync_all`. -/
def mkPageEventRow (user : UserId) (e : PageEventCreate) : PageEventRow where
  user_id := user
  session_id := e.sessionId
  event_type := e.eventType
  page_type := e.pageType
  page_url := e.pageUrl
  timestamp := fromtimestampMs e.timestamp
  from_page_type := e.fromPageType
  navigation_method := e.navigationMethod
  search_query := e.searchQuery
  search_results_count := e.searchResultsCount
  time_on_page_ms := e.timeOnPageMs

/-- A `video_watch_events` row. -/
structure VideoWatchEventRow where
  user_id : UserId
  session_id : String
  watch_session_id : String
  video_id : String
  event_type : String
  timestamp : Time
  video_time_seconds : ℚ
  seek_from_seconds : Option ℚ
  seek_to_seconds : Option ℚ
  seek_delta_seconds : Option ℚ
  playback_speed : Option ℚ
  watch_percent_at_abandon : Option Int

/-- The `VideoWatchEvent(...)` constructor call in `sync_all`. -/
def mkVideoWatchEventRow (user : UserId) (e : VideoWatchEventCreate) : VideoWatchEventRow where
  user_id := user
  session_id := e.sessionId
  watch_session_id := e.watchSessionId
  video_id := e.videoId
  event_type := e.eventType
  timestamp := fromtimestampMs e.timestamp
  video_time_seconds := e.videoTimeSeconds
  seek_from_seconds := e.seekFromSeconds
  seek_to_seconds := e.seekToSeconds
  seek_delta_seconds := e.seekDeltaSeconds
  playback_speed := e.playbackSpeed
  watch_percent_at_abandon := e.watchPercentAtAbandon

/-- A `recommendation_events` row. -/
structure RecommendationEventRow where
  user_id : UserId
  session_id : String
  location : String
  position_index : Int
  video_id : String
  video_title : Option String
  channel_name : Option String
  action : String
  hover_duration_ms : Option Int
  timestamp : Time
  was_autoplay_next : Bool
  autoplay_countdown_started : Bool
  autoplay_cancelled : Bool

/-- The `RecommendationEvent(...)` constructor call in `sync_all`. -/
def mkRecommendationEventRow (user : UserId) (e : RecommendationEventCreate) :
    RecommendationEventRow where
  user_id := user
  session_id := e.sessionId
  location := e.location
  position_index := e.positionIndex
  video_id := e.videoId
  video_title := e.videoTitle
  channel_name := e.channelName
  action := e.action
  hover_duration_ms := e.hoverDurationMs
  timestamp := fromtimestampMs e.timestamp
  was_autoplay_next := e.wasAutoplayNext
  autoplay_countdown_started := e.autoplayCountdownStarted
  autoplay_cancelled := e.autoplayCancelled

/-- An `intervention_events` row. -/
structure InterventionEventRow where
  user_id : UserId
  session_id : String
  intervention_type : String
  triggered_at : Time
  trigger_reason : Option String
  response : Option String
  response_at : Option Time
  response_time_ms : Option Int
  user_left_youtube : Bool
  minutes_until_return : Option Int

/-- The `InterventionEvent(...)` constructor call in `sync_all`. -/
def mkInterventionEventRow (user : UserId) (e : InterventionEventCreate) :
    InterventionEventRow where
  user_id := user
  session_id := e.sessionId
  intervention_type := e.interventionType
  triggered_at := fromtimestampMs e.triggeredAt
  trigger_reason := e.triggerReason
  response := e.response
  response_at := optTimeOfMs e.responseAt
  response_time_ms := e.responseTimeMs
  user_left_youtube := e.userLeftYoutube
  minutes_until_return := e.minutesUntilReturn

/-- A `mood_reports` row. -/
structure MoodReportRow where
  user_id : UserId
  session_id : String
  timestamp : Time
  report_type : String
  mood : Int
  intention : Option String
  satisfaction : Option Int

/-- The `MoodReport(...)` constructor call in `sync_all`. -/
def mkMoodReportRow (user : UserId) (r : MoodReportCreate) : MoodReportRow where
  user_id := user
  session_id := r.sessionId
  timestamp := fromtimestampMs r.timestamp
  report_type := r.reportType
  mood := r.mood
  intention := r.intention
  satisfaction := r.satisfaction

/-- A `productive_urls` row.  The suggestion/click counter columns keep
their server defaults and are never touched by the sync path, so they are
omitted. -/
structure ProductiveUrlRow where
  user_id : UserId
  ext_id : String
  url : String
  title : String
  added_at : Time
  deleted_at : Option Time

/-- The `ProductiveUrl(...)` constructor call in `sync_all` (a fresh row is
not soft-deleted). -/
def mkProductiveUrlRow (user : UserId) (u : ProductiveUrlCreate) : ProductiveUrlRow where
  user_id := user
  ext_id := u.id
  url := u.url
  title := u.title
  added_at := fromtimestampMs u.addedAt
  deleted_at := none

/-- The relational store: one list per table, in insertion order. -/
structure Store where
  video_sessions : List VideoSessionRow := []
  browser_sessions : List BrowserSessionRow := []
  daily_stats : List DailyStatsRow := []
  scroll_events : List ScrollEventRow := []
  thumbnail_events : List ThumbnailEventRow := []
  page_events : List PageEventRow := []
  video_watch_events : List VideoWatchEventRow := []
  recommendation_events : List RecommendationEventRow := []
  intervention_events : List InterventionEventRow := []
  mood_reports : List MoodReportRow := []
  productive_urls : List ProductiveUrlRow := []

/-! ## Payload validation (`validate_sync_payload`, `app/api/deps.py`) -/

/-- The per-collection item-count limit table.  `dailyStats` is deliberately
absent, exactly as in the source. -/
def limits : List (String × Nat) :=
  [("videoSessions", settings.max_video_sessions_per_sync),
   ("browserSessions", 100),
   ("scrollEvents", settings.max_events_per_sync),
   ("thumbnailEvents", settings.max_events_per_sync),
   ("pageEvents", settings.max_events_per_sync),
   ("videoWatchEvents", settings.max_events_per_sync),
   ("recommendationEvents", settings.max_events_per_sync),
   ("interventionEvents", settings.max_events_per_sync),
   ("moodReports", settings.max_events_per_sync),
   ("productiveUrls", 100)]

/-- Item count of the named sub-collection of `data.model_dump()` (every key
is always present in the dump). -/
def collectionSize (data : SyncData) (key : String) : Nat :=
  if key = "videoSessions" then data.videoSessions.length
  else if key = "browserSessions" then data.browserSessions.length
  else if key = "dailyStats" then data.dailyStats.length
  else if key = "scrollEvents" then data.scrollEvents.length
  else if key = "thumbnailEvents" then data.thumbnailEvents.length
  else if key = "pageEvents" then data.pageEvents.length
  else if key = "videoWatchEvents" then data.videoWatchEvents.length
  else if key = "recommendationEvents" then data.recommendationEvents.length
  else if key = "interventionEvents" then data.interventionEvents.length
  else if key = "moodReports" then data.moodReports.length
  else if key = "productiveUrls" then data.productiveUrls.length
  else 0

/-- The per-field overflow message `f"{key}: {len(items)} exceeds limit of {limit}"`. -/
def sizeLimitMsg (key : String) (n limit : Nat) : String :=
  key ++ ": " ++ toString n ++ " exceeds limit of " ++ toString limit

/-- The `errors` list accumulated by `validate_sync_payload`. -/
def payloadSizeErrors (data : SyncData) : List String :=
  limits.foldl
    (fun acc kl =>
      if collectionSize data kl.1 > kl.2 then
        acc ++ [sizeLimitMsg kl.1 (collectionSize data kl.1) kl.2]
      else acc)
    []

/-- `validate_sync_payload`: `some detail` is the HTTP 413 raised when any
limit is exceeded; `none` lets the request through. -/
def validate_sync_payload (data : SyncData) : Option String :=
  let errs := payloadSizeErrors data
  if errs = [] then none
  else some ("Payload too large: " ++ String.intercalate ", " errs)

/-! ## The reconciliation engine (`sync_all`, `app/api/routes/sync.py`) -/

/-- The `counts` dictionary of `sync_all`. -/
structure SyncedCounts where
  videoSessions : Nat := 0
  browserSessions : Nat := 0
  dailyStats : Nat := 0
  scrollEvents : Nat := 0
  thumbnailEvents : Nat := 0
  pageEvents : Nat := 0
  videoWatchEvents : Nat := 0
  recommendationEvents : Nat := 0
  interventionEvents : Nat := 0
  moodReports : Nat := 0
  productiveUrls : Nat := 0

/-- The transaction-scoped working state of one `sync_all` request: the
working store (committed rows plus flushed pending inserts — the session
autoflushes staged rows before each query, so in-batch lookups see them),
the `counts` dictionary, the soft-`errors` list, and the number of fallible
store round-trips performed so far. -/
structure Work where
  db : Store
  counts : SyncedCounts
  errors : List String
  ops : Nat

/-- One fallible store round-trip (`await db.execute(...)` or
`await db.commit()`).  The injected fault `failAt = some k` makes the `k`-th
such operation raise an unexpected store error. -/
def execOp (failAt : Option Nat) (w : Work) : Except Unit Work :=
  if failAt = some w.ops then Except.error ()
  else Except.ok { w with ops := w.ops + 1 }

/-- `Result.scalar_one_or_none()`: `none` on no row, the row when unique,
and `MultipleResultsFound` (an unexpected store error) on several rows. -/
def scalar_one_or_none {α} (l : List α) : Except Unit (Option α) :=
  match l with
  | [] => Except.ok none
  | [a] => Except.ok (some a)
  | _ => Except.error ()

/-- The video-session dedup key: `(user_id, ext_session_id)`. -/
def vsKey (user : UserId) (extId : String) (r : VideoSessionRow) : Bool :=
  decide (r.user_id = user ∧ r.ext_session_id = extId)

/-- The browser-session dedup lookup filters on `ext_session_id` alone —
the source `select` has no `user_id` clause. -/
def bsKey (extId : String) (r : BrowserSessionRow) : Bool :=
  decide (r.ext_session_id = extId)

/-- The daily-stats conflict key: the `(user_id, date)` primary key. -/
def dsKey (user : UserId) (d : Date) (r : DailyStatsRow) : Bool :=
  decide (r.user_id = user ∧ r.date = d)

/-- The productive-URL dedup key: `(user_id, ext_id)`. -/
def puKey (user : UserId) (extId : String) (r : ProductiveUrlRow) : Bool :=
  decide (r.user_id = user ∧ r.ext_id = extId)

/-- Rewrite the first element satisfying `p` (SQL `UPDATE` of the row a
keyed lookup returned; the tie among equal sort keys is resolved by list
order, the deterministic stand-in for the unspecified SQL order). -/
def mapFirst (p : α → Bool) (f : α → α) : List α → List α
  | [] => []
  | a :: as => if p a then f a :: as else a :: mapFirst p f as

/-- One `videoSessions` loop iteration: look up `(user, id)`; a hit is
skipped with `continue` — before the count is incremented; a miss is
inserted and counted. -/
def processVideoSession (failAt : Option Nat) (user : UserId) (s : VideoSessionCreate)
    (w : Work) : Except Unit Work :=
  match execOp failAt w with
  | Except.error e => Except.error e
  | Except.ok w =>
    match scalar_one_or_none (w.db.video_sessions.filter (vsKey user s.id)) with
    | Except.error e => Except.error e
    | Except.ok (some _) => Except.ok w
    | Except.ok none =>
      Except.ok { w with
        db.video_sessions := w.db.video_sessions ++ [mkVideoSessionRow user s],
        counts.videoSessions := w.counts.videoSessions + 1 }

/-- One `browserSessions` loop iteration: the lookup is by external session
id only (no user scoping); a hit is skipped uncounted, a miss inserted. -/
def processBrowserSession (failAt : Option Nat) (user : UserId) (b : BrowserSessionCreate)
    (w : Work) : Except Unit Work :=
  match execOp failAt w with
  | Except.error e => Except.error e
  | Except.ok w =>
    match scalar_one_or_none (w.db.browser_sessions.filter (bsKey b.id)) with
    | Except.error e => Except.error e
    | Except.ok (some _) => Except.ok w
    | Except.ok none =>
      Except.ok { w with
        db.browser_sessions := w.db.browser_sessions ++ [mkBrowserSessionRow user b],
        counts.browserSessions := w.counts.browserSessions + 1 }

/-- `INSERT ... ON CONFLICT (user_id, date) DO UPDATE`: the conflicting row
(unique, by the primary key) has every aggregate column overwritten and
`updated_at` refreshed — a full replacement by the incoming column image;
absent a conflict the image is inserted. -/
def upsertDailyStats (user : UserId) (d : Date) (s : DailyStatsCreate) (now : Time)
    (rows : List DailyStatsRow) : List DailyStatsRow :=
  if rows.any (dsKey user d) then
    mapFirst (dsKey user d) (fun _ => mkDailyStatsRow user d s now) rows
  else
    rows ++ [mkDailyStatsRow user d s now]

/-- The message recorded for an unparsable `dailyStats` date key. -/
def invalidDateMsg (s : String) : String := "Invalid date format: " ++ s

/-- One `dailyStats` loop iteration: parse the date key; on failure record a
soft error and `continue` (no store operation, not counted); on success run
the upsert and count it. -/
def processDailyStat (failAt : Option Nat) (now : Time) (user : UserId)
    (kv : String × DailyStatsCreate) (w : Work) : Except Unit Work :=
  match Date.fromisoformat kv.1 with
  | none => Except.ok { w with errors := w.errors ++ [invalidDateMsg kv.1] }
  | some d =>
    match execOp failAt w with
    | Except.error e => Except.error e
    | Except.ok w =>
      Except.ok { w with
        db.daily_stats := upsertDailyStats user d kv.2 now w.db.daily_stats,
        counts.dailyStats := w.counts.dailyStats + 1 }

/-- Append-only `scrollEvents` iteration: unconditional `db.add` (staged
in memory, not a fallible round-trip) plus count. -/
def processScrollEvent (user : UserId) (e : ScrollEventCreate) (w : Work) : Work :=
  { w with
    db.scroll_events := w.db.scroll_events ++ [mkScrollEventRow user e],
    counts.scrollEvents := w.counts.scrollEvents + 1 }

/-- Append-only `thumbnailEvents` iteration. -/
def processThumbnailEvent (user : UserId) (e : ThumbnailEventCreate) (w : Work) : Work :=
  { w with
    db.thumbnail_events := w.db.thumbnail_events ++ [mkThumbnailEventRow user e],
    counts.thumbnailEvents := w.counts.thumbnailEvents + 1 }

/-- Append-only `pageEvents` iteration. -/
def processPageEvent (user : UserId) (e : PageEventCreate) (w : Work) : Work :=
  { w with
    db.page_events := w.db.page_events ++ [mkPageEventRow user e],
    counts.pageEvents := w.counts.pageEvents + 1 }

/-- Append-only `videoWatchEvents` iteration. -/
def processVideoWatchEvent (user : UserId) (e : VideoWatchEventCreate) (w : Work) : Work :=
  { w with
    db.video_watch_events := w.db.video_watch_events ++ [mkVideoWatchEventRow user e],
    counts.videoWatchEvents := w.counts.videoWatchEvents + 1 }

/-- Append-only `recommendationEvents` iteration. -/
def processRecommendationEvent (user : UserId) (e : RecommendationEventCreate)
    (w : Work) : Work :=
  { w with
    db.recommendation_events := w.db.recommendation_events ++ [mkRecommendationEventRow user e],
    counts.recommendationEvents := w.counts.recommendationEvents + 1 }

/-- Append-only `interventionEvents` iteration. -/
def processInterventionEvent (user : UserId) (e : InterventionEventCreate)
    (w : Work) : Work :=
  { w with
    db.intervention_events := w.db.intervention_events ++ [mkInterventionEventRow user e],
    counts.interventionEvents := w.counts.interventionEvents + 1 }

/-- Append-only `moodReports` iteration. -/
def processMoodReport (user : UserId) (r : MoodReportCreate) (w : Work) : Work :=
  { w with
    db.mood_reports := w.db.mood_reports ++ [mkMoodReportRow user r],
    counts.moodReports := w.counts.moodReports + 1 }

/-- The update half of the productive-URL upsert: overwrite `url` and
`title` and clear the soft-delete marker (resurrection). -/
def resurrectUpdate (u : ProductiveUrlCreate) (r : ProductiveUrlRow) : ProductiveUrlRow :=
  { r with url := u.url, title := u.title, deleted_at := none }

/-- Apply the productive-URL update to the row the source lookup returns:
`WHERE user_id = user AND ext_id = id ORDER BY (deleted_at IS NULL) DESC
LIMIT 1` prefers a non-deleted match when duplicates exist, otherwise takes
a deleted one. -/
def updatePreferredProductiveUrl (user : UserId) (u : ProductiveUrlCreate)
    (rows : List ProductiveUrlRow) : List ProductiveUrlRow :=
  if (rows.filter (puKey user u.id)).any (fun r => r.deleted_at = none) then
    mapFirst (fun r => puKey user u.id r && decide (r.deleted_at = none)) (resurrectUpdate u) rows
  else
    mapFirst (puKey user u.id) (resurrectUpdate u) rows

/-- One `productiveUrls` loop iteration: keyed lookup (one round-trip,
`LIMIT 1`), then either resurrect-and-update the existing row or insert a
fresh one; counted either way. -/
def processProductiveUrl (failAt : Option Nat) (user : UserId) (u : ProductiveUrlCreate)
    (w : Work) : Except Unit Work :=
  match execOp failAt w with
  | Except.error e => Except.error e
  | Except.ok w =>
    if (w.db.productive_urls.filter (puKey user u.id)).isEmpty then
      Except.ok { w with
        db.productive_urls := w.db.productive_urls ++ [mkProductiveUrlRow user u],
        counts.productiveUrls := w.counts.productiveUrls + 1 }
    else
      Except.ok { w with
        db.productive_urls := updatePreferredProductiveUrl user u w.db.productive_urls,
        counts.productiveUrls := w.counts.productiveUrls + 1 }

/-- Run a fallible per-item step over a collection, item by item. -/
def runItems {α} (step : α → Work → Except Unit Work) : List α → Work → Except Unit Work
  | [], w => Except.ok w
  | a :: as, w =>
    match step a w with
    | Except.error e => Except.error e
    | Except.ok w => runItems step as w

/-- Run an infallible per-item step over a collection. -/
def runPure {α} (step : α → Work → Work) (l : List α) (w : Work) : Work :=
  l.foldl (fun w a => step a w) w

/-- The body of the `try:` block — the eleven per-collection loops, in the
fixed source order. -/
def processBatch (failAt : Option Nat) (now : Time) (user : UserId) (data : SyncData)
    (w : Work) : Except Unit Work :=
  match runItems (processVideoSession failAt user) data.videoSessions w with
  | Except.error e => Except.error e
  | Except.ok w =>
  match runItems (processBrowserSession failAt user) data.browserSessions w with
  | Except.error e => Except.error e
  | Except.ok w =>
  match runItems (processDailyStat failAt now user) data.dailyStats w with
  | Except.error e => Except.error e
  | Except.ok w =>
  let w := runPure (processScrollEvent user) data.scrollEvents w
  let w := runPure (processThumbnailEvent user) data.thumbnailEvents w
  let w := runPure (processPageEvent user) data.pageEvents w
  let w := runPure (processVideoWatchEvent user) data.videoWatchEvents w
  let w := runPure (processRecommendationEvent user) data.recommendationEvents w
  let w := runPure (processInterventionEvent user) data.interventionEvents w
  let w := runPure (processMoodReport user) data.moodReports w
  runItems (processProductiveUrl failAt user) data.productiveUrls w

/-- `SyncResponse`. -/
structure SyncResponse where
  success : Bool
  syncedCounts : SyncedCounts
  lastSyncTime : Int
  errors : List String

/-- The observable result of one request: the committed store plus either
the JSON response or an `HTTPException`. -/
inductive SyncOutcome where
  | ok (db : Store) (resp : SyncResponse)
  | httpError (status : Nat) (detail : String) (db : Store)

/-- The store as the request leaves it. -/
def SyncOutcome.store : SyncOutcome → Store
  | .ok db _ => db
  | .httpError _ _ db => db

/-- Whether the request returned a success response. -/
def SyncOutcome.isOk : SyncOutcome → Bool
  | .ok _ _ => true
  | .httpError _ _ _ => false

/-- `sync_all`: validate the payload sizes (any overflow raises HTTP 413
before a single store access), then run all loops and `commit` inside one
transaction; any store error rolls the whole batch back to the original
store and surfaces a generic HTTP 500.  `now` is the server clock as a
`datetime`, `nowMs` the epoch-millisecond clock used for `lastSyncTime`. -/
def sync_all (failAt : Option Nat) (now : Time) (nowMs : Int) (user : UserId)
    (data : SyncData) (db : Store) : SyncOutcome :=
  match validate_sync_payload data with
  | some detail => SyncOutcome.httpError 413 detail db
  | none =>
    match processBatch failAt now user data ⟨db, {}, [], 0⟩ with
    | Except.error _ => SyncOutcome.httpError 500 "Sync failed" db
    | Except.ok w =>
      match execOp failAt w with
      | Except.error _ => SyncOutcome.httpError 500 "Sync failed" db
      | Except.ok w =>
        SyncOutcome.ok w.db
          { success := true, syncedCounts := w.counts, lastSyncTime := nowMs,
            errors := w.errors }

/-! ## Weekly comparison (`get_weekly_comparison`, `app/api/routes/stats.py`) -/

/-- `SELECT sum(total_seconds) WHERE user_id = user AND lo ≤ date ≤ hi`,
with `NULL`-on-empty coalesced to `0` by the caller's `or 0` (the window
bounds are day ordinals; date comparison agrees with ordinal comparison). -/
def weeklySumSeconds (user : UserId) (lo hi : Int) (rows : List DailyStatsRow) : Int :=
  ((rows.filter fun r =>
      decide (r.user_id = user ∧ lo ≤ r.date.toOrdinal ∧ r.date.toOrdinal ≤ hi)).map
    (·.total_seconds)).sum

/-- `SELECT sum(video_count)` over the same window. -/
def weeklySumVideos (user : UserId) (lo hi : Int) (rows : List DailyStatsRow) : Int :=
  ((rows.filter fun r =>
      decide (r.user_id = user ∧ lo ≤ r.date.toOrdinal ∧ r.date.toOrdinal ≤ hi)).map
    (·.video_count)).sum

/-- `WeeklyComparison` (`app/models/schemas.py`). -/
structure WeeklyComparison where
  this_week_minutes : Int
  prev_week_minutes : Int
  change_percent : ℚ
  this_week_videos : Int
  prev_week_videos : Int

/-- `get_weekly_comparison`: the trailing 7-day window (`today - 6 .. today`)
versus the preceding one (`today - 13 .. today - 7`); minutes are
`int(seconds / 60)` (truncation); `change_percent` starts at `0.0` and is
only recomputed — over those truncated minutes, rounded to one decimal —
when the previous week has a positive number of minutes. -/
def get_weekly_comparison (user : UserId) (today : Date) (rows : List DailyStatsRow) :
    WeeklyComparison :=
  let t := today.toOrdinal
  let thisSeconds := weeklySumSeconds user (t - 6) t rows
  let prevSeconds := weeklySumSeconds user (t - 13) (t - 7) rows
  let this_week_minutes := pyTrunc ((thisSeconds : ℚ) / 60)
  let prev_week_minutes := pyTrunc ((prevSeconds : ℚ) / 60)
  let change_percent : ℚ :=
    if prev_week_minutes > 0 then
      pyRound1 ((((this_week_minutes : ℚ) - (prev_week_minutes : ℚ)) / (prev_week_minutes : ℚ)) * 100)
    else 0
  { this_week_minutes := this_week_minutes
    prev_week_minutes := prev_week_minutes
    change_percent := change_percent
    this_week_videos := weeklySumVideos user (t - 6) t rows
    prev_week_videos := weeklySumVideos user (t - 13) (t - 7) rows }

/-- The spec sentence for `change_percent`, verbatim: `(this-prev)/prev*100`
over the summed total **seconds** of the two windows, `0` when the previous
week's total is `0`.  Stated only for comparison against the implementation. -/
def specChangePercent (thisSeconds prevSeconds : Int) : ℚ :=
  if prevSeconds = 0 then 0
  else (((thisSeconds : ℚ) - (prevSeconds : ℚ)) / (prevSeconds : ℚ)) * 100

/-! ## Observations and multi-request runs -/

/-- The `syncedCounts` of a success response, if any. -/
def SyncOutcome.syncedCounts? : SyncOutcome → Option SyncedCounts
  | .ok _ r => some r.syncedCounts
  | .httpError _ _ _ => none

/-- The daily-stats read query of the endpoint layer:
`SELECT * FROM daily_stats WHERE user_id = user AND date = d`. -/
def dailyRowsFor (user : UserId) (d : Date) (db : Store) : List DailyStatsRow :=
  db.daily_stats.filter (dsKey user d)

/-- The `(user_id, date)` primary key of `daily_stats`: at most one row per
key.  Every reachable store satisfies it; it is the standing precondition
of the upsert reasoning. -/
def DSInv (db : Store) : Prop :=
  ∀ (u : UserId) (d : Date), (dailyRowsFor u d db).length ≤ 1

/-- One authenticated sync request: server clocks plus payload. -/
structure SyncCall where
  now : Time
  nowMs : Int
  data : SyncData

/-- Run a sequence of sync requests for one user, each against the store
the previous request left behind. -/
def runSyncs (user : UserId) (calls : List SyncCall) (db : Store) : Store :=
  calls.foldl (fun db c => (sync_all none c.now c.nowMs user c.data db).store) db

/-- Whether every request in the sequence returns a success response. -/
def allOk (user : UserId) : List SyncCall → Store → Prop
  | [], _ => True
  | c :: cs, db =>
    (sync_all none c.now c.nowMs user c.data db).isOk = true ∧
      allOk user cs (sync_all none c.now c.nowMs user c.data db).store

/-- The last entry of a `dailyStats` map whose key parses to date `d`
(later entries override earlier ones, as dict insertion order does). -/
def lastDailyEntryIn (d : Date) : List (String × DailyStatsCreate) → Option DailyStatsCreate
  | [] => none
  | kv :: rest =>
    match lastDailyEntryIn d rest with
    | some s => some s
    | none => if Date.fromisoformat kv.1 = some d then some kv.2 else none

/-- The last submitted stats entry for date `d` across a request sequence,
paired with the server clock of the request that carried it. -/
def lastDailyEntry (d : Date) : List SyncCall → Option (Time × DailyStatsCreate)
  | [] => none
  | c :: cs =>
    match lastDailyEntry d cs with
    | some e => some e
    | none =>
      match lastDailyEntryIn d c.data.dailyStats with
      | some s => some (c.now, s)
      | none => none

/-! ## Concrete scenario data -/

/-- A minimal video-session item (`id="abc"`, `videoId="xyz123"`). -/
def exVideoSession : VideoSessionCreate :=
  { id := "abc", videoId := "xyz123", timestamp := 0, startedAt := 0 }

/-- A second video-session item with a distinct external id. -/
def exVideoSession2 : VideoSessionCreate :=
  { id := "def", videoId := "v2", timestamp := 0, startedAt := 0 }

/-- A batch holding exactly one video session. -/
def exSessionBatch : SyncData := { videoSessions := [exVideoSession] }

/-- A batch holding two video sessions with distinct external ids. -/
def exSessionBatch2 : SyncData := { videoSessions := [exVideoSession, exVideoSession2] }

/-- A minimal browser-session item with external session id `s1`. -/
def exBrowserSession : BrowserSessionCreate := { id := "s1", startedAt := 0 }

/-- A store already holding user 0's browser session `s1`. -/
def exStoreOtherUser : Store := { browser_sessions := [mkBrowserSessionRow 0 exBrowserSession] }

/-- A minimal scroll event. -/
def exScrollEvent : ScrollEventCreate :=
  { sessionId := "s", timestamp := 0, scrollY := 0, scrollDepthPercent := 0,
    viewportHeight := 0, pageHeight := 0, scrollVelocity := 0, scrollDirection := "down" }

/-- A batch with 1001 scroll events — one over the limit of 1000. -/
def exOversizedBatch : SyncData := { scrollEvents := List.replicate 1001 exScrollEvent }

/-- A daily-stats payload entry with the given total seconds. -/
def exDailyStats (secs : Int) : DailyStatsCreate := { date := "", totalSeconds := secs }

/-- A stored daily-stats row for the given user, date and total seconds. -/
def exStatsRow (u : UserId) (d : Date) (secs : Int) : DailyStatsRow :=
  mkDailyStatsRow u d (exDailyStats secs) 0

/-- A daily-stats batch holding one unparsable date key and one valid one. -/
def exDailyBatch : SyncData :=
  { dailyStats := [("bad-date", exDailyStats 1), ("2024-01-01", exDailyStats 100)] }

/-- A soft-deleted productive-URL row of user 7 with external id `u1`. -/
def exDeletedUrlRow : ProductiveUrlRow :=
  { user_id := 7, ext_id := "u1", url := "http://old", title := "Old", added_at := 0,
    deleted_at := some 1 }

/-- A store holding only the soft-deleted bookmark. -/
def exUrlStore : Store := { productive_urls := [exDeletedUrlRow] }

/-- A resync of the same external id with fresh url and title. -/
def exUrlItem : ProductiveUrlCreate :=
  { id := "u1", url := "https://new", title := "New", addedAt := 2000 }

/-- January 1st, 2024. -/
def exDate : Date := { year := 2024, month := 1, day := 1 }

/-- Two sync calls resubmitting the date `2024-01-01`: first with
`totalSeconds = 100` at server time 1, then with `totalSeconds = 200` at
server time 2. -/
def exStatsCalls : List SyncCall :=
  [ { now := 1, nowMs := 1, data := { dailyStats := [("2024-01-01", exDailyStats 100)] } },
    { now := 2, nowMs := 2, data := { dailyStats := [("2024-01-01", exDailyStats 200)] } } ]

/-! ## General lemmas about the validation layer -/

theorem foldl_append_acc {α β} (g : α → List β) (l : List α) (acc : List β) :
    l.foldl (fun acc a => acc ++ g a) acc = acc ++ l.flatMap g := by
  induction l generalizing acc with
  | nil => simp
  | cons a as ih => simp [ih, List.append_assoc]

theorem payloadSizeErrors_eq (data : SyncData) :
    payloadSizeErrors data =
      limits.flatMap fun kl =>
        if collectionSize data kl.1 > kl.2 then
          [sizeLimitMsg kl.1 (collectionSize data kl.1) kl.2]
        else [] := by
  have h : payloadSizeErrors data =
      limits.foldl
        (fun acc kl =>
          acc ++ if collectionSize data kl.1 > kl.2 then
            [sizeLimitMsg kl.1 (collectionSize data kl.1) kl.2]
          else []) [] := by
    unfold payloadSizeErrors
    congr 1
    funext acc kl
    by_cases hc : collectionSize data kl.1 > kl.2 <;> simp [hc]
  rw [h, foldl_append_acc]
  simp

/-! ## C2: atomic rollback on any unexpected store error -/

/-- **C2** (confirmed).  If an unexpected store error occurs anywhere while
processing a sync batch that passed payload validation — modelled by any
fault injection that prevents a success response — the call returns the
generic HTTP 500 failure and the committed store is exactly the store from
before the request: zero rows of the batch, including items processed
earlier, are committed. -/
theorem sync_store_error_rolls_back_batch (failAt : Option Nat) (now : Time) (nowMs : Int)
    (user : UserId) (data : SyncData) (db : Store)
    (hv : payloadSizeErrors data = [])
    (hfail : (sync_all failAt now nowMs user data db).isOk = false) :
    sync_all failAt now nowMs user data db = SyncOutcome.httpError 500 "Sync failed" db := by
  unfold sync_all at hfail ⊢
  simp only [validate_sync_payload, hv, if_true] at hfail ⊢
  cases h : processBatch failAt now user data ⟨db, {}, [], 0⟩ with
  | error e => simp [h]
  | ok w =>
    cases h2 : execOp failAt w with
    | error e => simp [h, h2]
    | ok w2 => simp [h, h2, SyncOutcome.isOk] at hfail

/-- **C2 witness**: a two-item batch over an empty store with the fault
injected at the second store operation — after the first item was already
processed — rolls back to the empty store with a 500. -/
theorem sync_store_error_rolls_back_batch_witness :
    sync_all (some 1) 0 0 0 exSessionBatch2 {} = SyncOutcome.httpError 500 "Sync failed" {} :=
  sync_store_error_rolls_back_batch (some 1) 0 0 0 exSessionBatch2 {} rfl rfl

/-! ## C6: oversized collections reject the whole request -/

/-- **C6** (confirmed).  If any sub-collection exceeds its item-count limit,
the request fails with HTTP 413 before any store access — the store of the
outcome is the untouched input store — and the detail message is built from
an error list that names every offending field. -/
theorem payload_too_large_rejects_batch (failAt : Option Nat) (now : Time) (nowMs : Int)
    (user : UserId) (data : SyncData) (db : Store)
    (hv : payloadSizeErrors data ≠ []) :
    sync_all failAt now nowMs user data db =
      SyncOutcome.httpError 413
        ("Payload too large: " ++ String.intercalate ", " (payloadSizeErrors data)) db ∧
    ∀ kl ∈ limits, kl.2 < collectionSize data kl.1 →
      sizeLimitMsg kl.1 (collectionSize data kl.1) kl.2 ∈ payloadSizeErrors data := by
  constructor
  · unfold sync_all
    simp only [validate_sync_payload, hv, if_false, if_neg hv]
  · intro kl hkl hover
    rw [payloadSizeErrors_eq]
    refine List.mem_flatMap.mpr ⟨kl, hkl, ?_⟩
    simp [hover]

set_option maxRecDepth 20000 in
/-- **C6 witness**: a batch with 1001 scroll events (limit 1000) is rejected
wholesale with a 413 naming `scrollEvents`, the store untouched. -/
theorem payload_too_large_rejects_batch_witness :
    sync_all none 0 0 0 exOversizedBatch {} =
      SyncOutcome.httpError 413
        ("Payload too large: " ++ String.intercalate ", " (payloadSizeErrors exOversizedBatch))
        {} ∧
    sizeLimitMsg "scrollEvents" 1001 1000 ∈ payloadSizeErrors exOversizedBatch := by
  have hne : payloadSizeErrors exOversizedBatch ≠ [] := by
    simp [payloadSizeErrors_eq, limits, settings, collectionSize, exOversizedBatch]
  have h := payload_too_large_rejects_batch none 0 0 0 exOversizedBatch {} hne
  refine ⟨h.1, ?_⟩
  have hm := h.2 ("scrollEvents", settings.max_events_per_sync)
    (by simp [limits]) (by simp [collectionSize, exOversizedBatch, settings])
  simpa [collectionSize, exOversizedBatch, settings] using hm

/-! ## C10: the dailyStats map is exempt from item-count limits -/

/-- **C10** (confirmed).  The limit table covers exactly the ten list-valued
collections; `dailyStats` is not in it.  Whatever the size of the
`dailyStats` map, a payload whose ten listed collections are within their
limits passes `validate_sync_payload`, and no request is ever rejected with
the payload-too-large status (the only non-success status left is the
rollback 500). -/
theorem daily_stats_not_size_limited (data : SyncData)
    (h1 : data.videoSessions.length ≤ 200)
    (h2 : data.browserSessions.length ≤ 100)
    (h3 : data.scrollEvents.length ≤ 1000)
    (h4 : data.thumbnailEvents.length ≤ 1000)
    (h5 : data.pageEvents.length ≤ 1000)
    (h6 : data.videoWatchEvents.length ≤ 1000)
    (h7 : data.recommendationEvents.length ≤ 1000)
    (h8 : data.interventionEvents.length ≤ 1000)
    (h9 : data.moodReports.length ≤ 1000)
    (h10 : data.productiveUrls.length ≤ 100) :
    payloadSizeErrors data = [] ∧
    validate_sync_payload data = none ∧
    ∀ (failAt : Option Nat) (now : Time) (nowMs : Int) (user : UserId) (db : Store)
      (st : Nat) (detail : String) (db2 : Store),
      sync_all failAt now nowMs user data db = SyncOutcome.httpError st detail db2 →
      st = 500 := by
  have e1 : ¬(data.videoSessions.length > 200) := by omega
  have e2 : ¬(data.browserSessions.length > 100) := by omega
  have e3 : ¬(data.scrollEvents.length > 1000) := by omega
  have e4 : ¬(data.thumbnailEvents.length > 1000) := by omega
  have e5 : ¬(data.pageEvents.length > 1000) := by omega
  have e6 : ¬(data.videoWatchEvents.length > 1000) := by omega
  have e7 : ¬(data.recommendationEvents.length > 1000) := by omega
  have e8 : ¬(data.interventionEvents.length > 1000) := by omega
  have e9 : ¬(data.moodReports.length > 1000) := by omega
  have e10 : ¬(data.productiveUrls.length > 100) := by omega
  have hempty : payloadSizeErrors data = [] := by
    simp [payloadSizeErrors_eq, limits, settings, collectionSize,
      e1, e2, e3, e4, e5, e6, e7, e8, e9, e10]
  refine ⟨hempty, ?_, ?_⟩
  · simp [validate_sync_payload, hempty]
  · intro failAt now nowMs user db st detail db2 hcall
    unfold sync_all at hcall
    simp only [validate_sync_payload, hempty, if_true] at hcall
    cases h : processBatch failAt now user data ⟨db, {}, [], 0⟩ with
    | error e =>
      rw [h] at hcall
      simp only [SyncOutcome.httpError.injEq] at hcall
      exact hcall.1.symm
    | ok w =>
      rw [h] at hcall
      cases h2 : execOp failAt w with
      | error e =>
        simp only [h2, SyncOutcome.httpError.injEq] at hcall
        exact hcall.1.symm
      | ok w2 => simp [h2] at hcall

/-- **C10 witness**: a payload whose `dailyStats` map has five entries and
whose listed collections are all empty passes validation. -/
theorem daily_stats_not_size_limited_witness :
    payloadSizeErrors
        { dailyStats := [("a", exDailyStats 1), ("b", exDailyStats 2), ("c", exDailyStats 3),
                          ("d", exDailyStats 4), ("e", exDailyStats 5)] } = [] ∧
    validate_sync_payload
        { dailyStats := [("a", exDailyStats 1), ("b", exDailyStats 2), ("c", exDailyStats 3),
                          ("d", exDailyStats 4), ("e", exDailyStats 5)] } = none := by
  have h := daily_stats_not_size_limited
    { dailyStats := [("a", exDailyStats 1), ("b", exDailyStats 2), ("c", exDailyStats 3),
                      ("d", exDailyStats 4), ("e", exDailyStats 5)] }
    (by decide) (by decide) (by decide) (by decide) (by decide) (by decide) (by decide)
    (by decide) (by decide) (by decide)
  exact ⟨h.1, h.2.1⟩

/-! ## Small-step lemmas for the reconciliation loops -/

theorem execOp_none (w : Work) : execOp none w = Except.ok { w with ops := w.ops + 1 } := by
  simp [execOp]

theorem runItems_nil {α} (step : α → Work → Except Unit Work) (w : Work) :
    runItems step [] w = Except.ok w := rfl

theorem runItems_cons_ok {α} {step : α → Work → Except Unit Work} {a : α} {as : List α}
    {w w1 : Work} (h : step a w = Except.ok w1) :
    runItems step (a :: as) w = runItems step as w1 := by
  rw [runItems, h]

theorem runItems_cons_err {α} {step : α → Work → Except Unit Work} {a : α} {as : List α}
    {w : Work} (h : step a w = Except.error ()) :
    runItems step (a :: as) w = Except.error () := by
  rw [runItems, h]

theorem processVS_hit {u : UserId} {s : VideoSessionCreate} {w : Work} {r : VideoSessionRow}
    (h : w.db.video_sessions.filter (vsKey u s.id) = [r]) :
    processVideoSession none u s w = Except.ok { w with ops := w.ops + 1 } := by
  simp [processVideoSession, execOp_none, h, scalar_one_or_none]

theorem processVS_miss {u : UserId} {s : VideoSessionCreate} {w : Work}
    (h : w.db.video_sessions.filter (vsKey u s.id) = []) :
    processVideoSession none u s w =
      Except.ok { w with
        db.video_sessions := w.db.video_sessions ++ [mkVideoSessionRow u s],
        counts.videoSessions := w.counts.videoSessions + 1,
        ops := w.ops + 1 } := by
  simp [processVideoSession, execOp_none, h, scalar_one_or_none]

theorem processVS_err {u : UserId} {s : VideoSessionCreate} {w : Work}
    {r r2 : VideoSessionRow} {rs2 : List VideoSessionRow}
    (h : w.db.video_sessions.filter (vsKey u s.id) = r :: r2 :: rs2) :
    processVideoSession none u s w = Except.error () := by
  rw [processVideoSession, execOp_none]
  simp only [h, scalar_one_or_none]

/-- The fresh video-session row matches exactly its own `(user, id)` key. -/
theorem vsKey_mk (u u' : UserId) (k : String) (s : VideoSessionCreate) :
    vsKey u' k (mkVideoSessionRow u s) = decide (u = u' ∧ s.id = k) := by
  simp [vsKey, mkVideoSessionRow]

theorem runVS_pres {u : UserId} {l : List VideoSessionCreate} {w w' : Work}
    (hrun : runItems (processVideoSession none u) l w = Except.ok w')
    (u' : UserId) (k : String)
    (hne : w.db.video_sessions.filter (vsKey u' k) ≠ []) :
    w'.db.video_sessions.filter (vsKey u' k) = w.db.video_sessions.filter (vsKey u' k) := by
  induction l generalizing w with
  | nil => cases hrun; rfl
  | cons s as ih =>
    cases hf : w.db.video_sessions.filter (vsKey u s.id) with
    | nil =>
      rw [runItems_cons_ok (processVS_miss hf)] at hrun
      have hstep : List.filter (vsKey u' k)
          (w.db.video_sessions ++ [mkVideoSessionRow u s]) =
          w.db.video_sessions.filter (vsKey u' k) := by
        rw [List.filter_append]
        have hnil : List.filter (vsKey u' k) [mkVideoSessionRow u s] = [] := by
          by_cases h1 : u = u' ∧ s.id = k
          · exfalso
            apply hne
            rcases h1 with ⟨h1, h2⟩
            subst h1; subst h2
            simpa using hf
          · simp [vsKey_mk, h1]
        rw [hnil, List.append_nil]
      have hres := ih hrun (by simpa [hstep] using hne)
      simpa [hstep] using hres
    | cons r rs =>
      cases rs with
      | nil =>
        rw [runItems_cons_ok (processVS_hit hf)] at hrun
        have hres := ih hrun hne
        exact hres
      | cons r2 rs2 =>
        rw [runItems_cons_err (processVS_err hf)] at hrun
        exact Except.noConfusion hrun

theorem runVS_after {u : UserId} {l : List VideoSessionCreate} {w w' : Work}
    (hrun : runItems (processVideoSession none u) l w = Except.ok w') :
    ∀ s ∈ l, (w'.db.video_sessions.filter (vsKey u s.id)).length = 1 := by
  induction l generalizing w with
  | nil => intro s hs; cases hs
  | cons s0 as ih =>
    intro s hs
    cases hf : w.db.video_sessions.filter (vsKey u s0.id) with
    | nil =>
      rw [runItems_cons_ok (processVS_miss hf)] at hrun
      rcases List.mem_cons.mp hs with heq | hmem
      · subst heq
        have hone : List.filter (vsKey u s.id)
            (w.db.video_sessions ++ [mkVideoSessionRow u s]) = [mkVideoSessionRow u s] := by
          rw [List.filter_append, hf]
          simp [vsKey_mk]
        have hpres := runVS_pres hrun u s.id (by
          show List.filter (vsKey u s.id)
            (w.db.video_sessions ++ [mkVideoSessionRow u s]) ≠ []
          rw [hone]
          simp)
        rw [hpres]
        simp [hone]
      · exact ih hrun s hmem
    | cons r rs =>
      cases rs with
      | nil =>
        rw [runItems_cons_ok (processVS_hit hf)] at hrun
        rcases List.mem_cons.mp hs with heq | hmem
        · subst heq
          have hpres := runVS_pres hrun u s.id (by simp [hf])
          rw [hpres]
          simp [hf]
        · exact ih hrun s hmem
      | cons r2 rs2 =>
        rw [runItems_cons_err (processVS_err hf)] at hrun
        exact Except.noConfusion hrun

theorem runVS_skip {u : UserId} {l : List VideoSessionCreate} {w : Work}
    (h : ∀ s ∈ l, (w.db.video_sessions.filter (vsKey u s.id)).length = 1) :
    ∃ n, runItems (processVideoSession none u) l w = Except.ok { w with ops := n } := by
  induction l generalizing w with
  | nil => exact ⟨w.ops, rfl⟩
  | cons s as ih =>
    rcases List.length_eq_one.mp (h s (by simp)) with ⟨r, hr⟩
    rcases ih (w := { w with ops := w.ops + 1 })
      (fun s hs => h s (by simp [hs])) with ⟨n, hn⟩
    exact ⟨n, by rw [runItems_cons_ok (processVS_hit hr), hn]⟩

theorem runVS_frame {u : UserId} {l : List VideoSessionCreate} {w w' : Work}
    (hrun : runItems (processVideoSession none u) l w = Except.ok w') :
    w'.db = { w.db with video_sessions := w'.db.video_sessions } ∧
    w'.counts = { w.counts with videoSessions := w'.counts.videoSessions } ∧
    w'.errors = w.errors := by
  induction l generalizing w with
  | nil => cases hrun; exact ⟨rfl, rfl, rfl⟩
  | cons s as ih =>
    cases hf : w.db.video_sessions.filter (vsKey u s.id) with
    | nil =>
      rw [runItems_cons_ok (processVS_miss hf)] at hrun
      have hres := ih hrun
      refine ⟨?_, ?_, ?_⟩
      · rw [hres.1]
      · rw [hres.2.1]
      · rw [hres.2.2]
    | cons r rs =>
      cases rs with
      | nil =>
        rw [runItems_cons_ok (processVS_hit hf)] at hrun
        have hres := ih hrun
        exact hres
      | cons r2 rs2 =>
        rw [runItems_cons_err (processVS_err hf)] at hrun
        exact Except.noConfusion hrun

theorem processBS_hit {u : UserId} {b : BrowserSessionCreate} {w : Work} {r : BrowserSessionRow}
    (h : w.db.browser_sessions.filter (bsKey b.id) = [r]) :
    processBrowserSession none u b w = Except.ok { w with ops := w.ops + 1 } := by
  simp [processBrowserSession, execOp_none, h, scalar_one_or_none]

theorem processBS_miss {u : UserId} {b : BrowserSessionCreate} {w : Work}
    (h : w.db.browser_sessions.filter (bsKey b.id) = []) :
    processBrowserSession none u b w =
      Except.ok { w with
        db.browser_sessions := w.db.browser_sessions ++ [mkBrowserSessionRow u b],
        counts.browserSessions := w.counts.browserSessions + 1,
        ops := w.ops + 1 } := by
  simp [processBrowserSession, execOp_none, h, scalar_one_or_none]

theorem processBS_err {u : UserId} {b : BrowserSessionCreate} {w : Work}
    {r r2 : BrowserSessionRow} {rs2 : List BrowserSessionRow}
    (h : w.db.browser_sessions.filter (bsKey b.id) = r :: r2 :: rs2) :
    processBrowserSession none u b w = Except.error () := by
  rw [processBrowserSession, execOp_none]
  simp only [h, scalar_one_or_none]

/-- The fresh browser-session row matches exactly its own external id. -/
theorem bsKey_mk (u : UserId) (k : String) (b : BrowserSessionCreate) :
    bsKey k (mkBrowserSessionRow u b) = decide (b.id = k) := by
  simp [bsKey, mkBrowserSessionRow]

theorem runBS_pres {u : UserId} {l : List BrowserSessionCreate} {w w' : Work}
    (hrun : runItems (processBrowserSession none u) l w = Except.ok w')
    (k : String)
    (hne : w.db.browser_sessions.filter (bsKey k) ≠ []) :
    w'.db.browser_sessions.filter (bsKey k) = w.db.browser_sessions.filter (bsKey k) := by
  induction l generalizing w with
  | nil => cases hrun; rfl
  | cons b as ih =>
    cases hf : w.db.browser_sessions.filter (bsKey b.id) with
    | nil =>
      rw [runItems_cons_ok (processBS_miss hf)] at hrun
      have hstep : List.filter (bsKey k)
          (w.db.browser_sessions ++ [mkBrowserSessionRow u b]) =
          w.db.browser_sessions.filter (bsKey k) := by
        rw [List.filter_append]
        have hnil : List.filter (bsKey k) [mkBrowserSessionRow u b] = [] := by
          by_cases h1 : b.id = k
          · exfalso
            apply hne
            subst h1
            simpa using hf
          · simp [bsKey_mk, h1]
        rw [hnil, List.append_nil]
      have hres := ih hrun (by simpa [hstep] using hne)
      simpa [hstep] using hres
    | cons r rs =>
      cases rs with
      | nil =>
        rw [runItems_cons_ok (processBS_hit hf)] at hrun
        have hres := ih hrun hne
        exact hres
      | cons r2 rs2 =>
        rw [runItems_cons_err (processBS_err hf)] at hrun
        exact Except.noConfusion hrun

theorem runBS_after {u : UserId} {l : List BrowserSessionCreate} {w w' : Work}
    (hrun : runItems (processBrowserSession none u) l w = Except.ok w') :
    ∀ b ∈ l, (w'.db.browser_sessions.filter (bsKey b.id)).length = 1 := by
  induction l generalizing w with
  | nil => intro b hb; cases hb
  | cons b0 as ih =>
    intro b hb
    cases hf : w.db.browser_sessions.filter (bsKey b0.id) with
    | nil =>
      rw [runItems_cons_ok (processBS_miss hf)] at hrun
      rcases List.mem_cons.mp hb with heq | hmem
      · subst heq
        have hone : List.filter (bsKey b.id)
            (w.db.browser_sessions ++ [mkBrowserSessionRow u b]) = [mkBrowserSessionRow u b] := by
          rw [List.filter_append, hf]
          simp [bsKey_mk]
        have hpres := runBS_pres hrun b.id (by
          show List.filter (bsKey b.id)
            (w.db.browser_sessions ++ [mkBrowserSessionRow u b]) ≠ []
          rw [hone]
          simp)
        rw [hpres]
        simp [hone]
      · exact ih hrun b hmem
    | cons r rs =>
      cases rs with
      | nil =>
        rw [runItems_cons_ok (processBS_hit hf)] at hrun
        rcases List.mem_cons.mp hb with heq | hmem
        · subst heq
          have hpres := runBS_pres hrun b.id (by simp [hf])
          rw [hpres]
          simp [hf]
        · exact ih hrun b hmem
      | cons r2 rs2 =>
        rw [runItems_cons_err (processBS_err hf)] at hrun
        exact Except.noConfusion hrun

theorem runBS_skip {u : UserId} {l : List BrowserSessionCreate} {w : Work}
    (h : ∀ b ∈ l, (w.db.browser_sessions.filter (bsKey b.id)).length = 1) :
    ∃ n, runItems (processBrowserSession none u) l w = Except.ok { w with ops := n } := by
  induction l generalizing w with
  | nil => exact ⟨w.ops, rfl⟩
  | cons b as ih =>
    rcases List.length_eq_one.mp (h b (by simp)) with ⟨r, hr⟩
    rcases ih (w := { w with ops := w.ops + 1 })
      (fun b hb => h b (by simp [hb])) with ⟨n, hn⟩
    exact ⟨n, by rw [runItems_cons_ok (processBS_hit hr), hn]⟩

theorem runBS_frame {u : UserId} {l : List BrowserSessionCreate} {w w' : Work}
    (hrun : runItems (processBrowserSession none u) l w = Except.ok w') :
    w'.db = { w.db with browser_sessions := w'.db.browser_sessions } ∧
    w'.counts = { w.counts with browserSessions := w'.counts.browserSessions } ∧
    w'.errors = w.errors := by
  induction l generalizing w with
  | nil => cases hrun; exact ⟨rfl, rfl, rfl⟩
  | cons b as ih =>
    cases hf : w.db.browser_sessions.filter (bsKey b.id) with
    | nil =>
      rw [runItems_cons_ok (processBS_miss hf)] at hrun
      have hres := ih hrun
      refine ⟨?_, ?_, ?_⟩
      · rw [hres.1]
      · rw [hres.2.1]
      · rw [hres.2.2]
    | cons r rs =>
      cases rs with
      | nil =>
        rw [runItems_cons_ok (processBS_hit hf)] at hrun
        have hres := ih hrun
        exact hres
      | cons r2 rs2 =>
        rw [runItems_cons_err (processBS_err hf)] at hrun
        exact Except.noConfusion hrun

/-! ## Decomposing a successful `sync_all` call -/

theorem sync_all_ok_destruct {now : Time} {nowMs : Int} {u : UserId} {data : SyncData}
    {db db1 : Store} {r1 : SyncResponse}
    (h : sync_all none now nowMs u data db = SyncOutcome.ok db1 r1) :
    validate_sync_payload data = none ∧
    ∃ w, processBatch none now u data ⟨db, {}, [], 0⟩ = Except.ok w ∧
      db1 = w.db ∧
      r1 = { success := true, syncedCounts := w.counts, lastSyncTime := nowMs,
             errors := w.errors } := by
  unfold sync_all at h
  cases hval : validate_sync_payload data with
  | some d => rw [hval] at h; exact absurd h (by simp)
  | none =>
    rw [hval] at h
    refine ⟨rfl, ?_⟩
    cases hb : processBatch none now u data ⟨db, {}, [], 0⟩ with
    | error e => rw [hb] at h; exact absurd h (by simp)
    | ok w =>
      rw [hb] at h
      simp only [execOp_none, SyncOutcome.ok.injEq] at h
      exact ⟨w, rfl, h.1.symm, h.2.symm⟩

theorem sync_all_of_processBatch {now : Time} {nowMs : Int} {u : UserId} {data : SyncData}
    {db : Store} {w : Work}
    (hval : validate_sync_payload data = none)
    (hb : processBatch none now u data ⟨db, {}, [], 0⟩ = Except.ok w) :
    sync_all none now nowMs u data db =
      SyncOutcome.ok w.db
        { success := true, syncedCounts := w.counts, lastSyncTime := nowMs,
          errors := w.errors } := by
  unfold sync_all
  rw [hval]
  simp only [hb, execOp_none]

/-- With every collection beyond the two session tables empty, the batch is
just the two first-write-wins phases in order. -/
theorem processBatch_sessions_only {fa : Option Nat} {now : Time} {u : UserId}
    {data : SyncData} {w : Work}
    (h3 : data.dailyStats = []) (h4 : data.scrollEvents = [])
    (h5 : data.thumbnailEvents = []) (h6 : data.pageEvents = [])
    (h7 : data.videoWatchEvents = []) (h8 : data.recommendationEvents = [])
    (h9 : data.interventionEvents = []) (h10 : data.moodReports = [])
    (h11 : data.productiveUrls = []) :
    processBatch fa now u data w =
      match runItems (processVideoSession fa u) data.videoSessions w with
      | Except.error e => Except.error e
      | Except.ok w => runItems (processBrowserSession fa u) data.browserSessions w := by
  unfold processBatch
  rw [h3, h4, h5, h6, h7, h8, h9, h10, h11]
  cases runItems (processVideoSession fa u) data.videoSessions w with
  | error e => rfl
  | ok w1 =>
    dsimp only
    cases runItems (processBrowserSession fa u) data.browserSessions w1 with
    | error e => rfl
    | ok w2 => rfl

/-! ## C1: retrying a session batch -/

/-- **C1** (corrected).  Resubmitting a batch of `videoSessions` and
`browserSessions` after a successful first call inserts no new row and
leaves the store — every existing row included — exactly as the first call
left it; but the second call's `syncedCounts` are all **zero** (a skipped
duplicate is `continue`d before the count is incremented), not the first
call's processed count, and its response carries no errors. -/
theorem sync_first_write_wins_idempotent
    (now now2 : Time) (nowMs nowMs2 : Int) (u : UserId) (data : SyncData)
    (db db1 : Store) (r1 : SyncResponse)
    (h3 : data.dailyStats = []) (h4 : data.scrollEvents = [])
    (h5 : data.thumbnailEvents = []) (h6 : data.pageEvents = [])
    (h7 : data.videoWatchEvents = []) (h8 : data.recommendationEvents = [])
    (h9 : data.interventionEvents = []) (h10 : data.moodReports = [])
    (h11 : data.productiveUrls = [])
    (h1 : sync_all none now nowMs u data db = SyncOutcome.ok db1 r1) :
    sync_all none now2 nowMs2 u data db1 =
      SyncOutcome.ok db1
        { success := true, syncedCounts := {}, lastSyncTime := nowMs2, errors := [] } := by
  obtain ⟨hval, w0, hb, hdb1, -⟩ := sync_all_ok_destruct h1
  subst hdb1
  rw [processBatch_sessions_only h3 h4 h5 h6 h7 h8 h9 h10 h11] at hb
  cases hvs : runItems (processVideoSession none u) data.videoSessions ⟨db, {}, [], 0⟩ with
  | error e => rw [hvs] at hb; exact absurd hb (by simp)
  | ok wa =>
    rw [hvs] at hb
    have hva := runVS_after hvs
    have hba := runBS_after hb
    have hframe := runBS_frame hb
    have hvs_eq : w0.db.video_sessions = wa.db.video_sessions := by rw [hframe.1]
    obtain ⟨n1, hrun1⟩ := runVS_skip (u := u) (l := data.videoSessions)
      (w := ⟨w0.db, {}, [], 0⟩)
      (by
        intro s hs
        show (w0.db.video_sessions.filter (vsKey u s.id)).length = 1
        rw [hvs_eq]
        exact hva s hs)
    obtain ⟨n2, hrun2⟩ := runBS_skip (u := u) (l := data.browserSessions)
      (w := { db := w0.db, counts := {}, errors := [], ops := n1 })
      (by
        intro b hbm
        exact hba b hbm)
    have hb2 : processBatch none now2 u data ⟨w0.db, {}, [], 0⟩ =
        Except.ok { db := w0.db, counts := {}, errors := [], ops := n2 } := by
      rw [processBatch_sessions_only h3 h4 h5 h6 h7 h8 h9 h10 h11, hrun1]
      exact hrun2
    exact sync_all_of_processBatch hval hb2

/-- **C1 witness** for the amended theorem: a one-item batch over the empty
store syncs, and the retry returns the unchanged store with zero counts. -/
theorem sync_first_write_wins_idempotent_witness :
    sync_all none 1 1 0 exSessionBatch (sync_all none 0 0 0 exSessionBatch {}).store =
      SyncOutcome.ok (sync_all none 0 0 0 exSessionBatch {}).store
        { success := true, syncedCounts := {}, lastSyncTime := 1, errors := [] } :=
  sync_first_write_wins_idempotent 0 1 0 1 0 exSessionBatch {}
    (sync_all none 0 0 0 exSessionBatch {}).store
    { success := true, syncedCounts := { videoSessions := 1 }, lastSyncTime := 0, errors := [] }
    rfl rfl rfl rfl rfl rfl rfl rfl rfl rfl

/-- **C1 counterexample**: the first call reports `videoSessions = 1`; the
identical second call reports `videoSessions = 0` — the skipped duplicate
is *not* counted as processed, so the second call does not report the same
processed count as the first. -/
theorem sync_idempotent_count_counterexample :
    (sync_all none 0 0 0 exSessionBatch {}).syncedCounts?.map
        (fun c => c.videoSessions) = some 1 ∧
    (sync_all none 1 1 0 exSessionBatch
        (sync_all none 0 0 0 exSessionBatch {}).store).syncedCounts?.map
        (fun c => c.videoSessions) = some 0 ∧
    (1 : Nat) ≠ 0 :=
  ⟨rfl, rfl, by decide⟩

/-! ## C4: scoping of the dedup keys -/

/-- **C4** (corrected).  The video-session dedup lookup is keyed by
`(user, external id)`: an item whose id has no row *for the requesting
user* is inserted, even if other users own rows with the same external id.
The browser-session lookup, by contrast, filters on the external id
**alone** — a single matching row, whoever owns it, makes the item a
skipped (and uncounted) duplicate, with nothing inserted for the
requesting user. -/
theorem dedup_key_scoping :
    (∀ (now : Time) (nowMs : Int) (u : UserId) (s : VideoSessionCreate) (db : Store),
      db.video_sessions.filter (vsKey u s.id) = [] →
      sync_all none now nowMs u { videoSessions := [s] } db =
        SyncOutcome.ok
          { db with video_sessions := db.video_sessions ++ [mkVideoSessionRow u s] }
          { success := true, syncedCounts := { videoSessions := 1 }, lastSyncTime := nowMs,
            errors := [] }) ∧
    (∀ (now : Time) (nowMs : Int) (u : UserId) (b : BrowserSessionCreate) (db : Store),
      (db.browser_sessions.filter (bsKey b.id)).length = 1 →
      sync_all none now nowMs u { browserSessions := [b] } db =
        SyncOutcome.ok db
          { success := true, syncedCounts := {}, lastSyncTime := nowMs, errors := [] }) := by
  constructor
  · intro now nowMs u s db hfilter
    have hval : validate_sync_payload { videoSessions := [s] } = none := by
      simp [validate_sync_payload, payloadSizeErrors_eq, limits, collectionSize, settings]
    have hb : processBatch none now u { videoSessions := [s] } ⟨db, {}, [], 0⟩ =
        Except.ok
          { db := { db with video_sessions := db.video_sessions ++ [mkVideoSessionRow u s] },
            counts := { videoSessions := 1 }, errors := [], ops := 1 } := by
      rw [processBatch_sessions_only rfl rfl rfl rfl rfl rfl rfl rfl rfl,
        runItems_cons_ok (processVS_miss hfilter)]
      rfl
    exact sync_all_of_processBatch hval hb
  · intro now nowMs u b db hfilter
    obtain ⟨r, hr⟩ := List.length_eq_one.mp hfilter
    have hval : validate_sync_payload { browserSessions := [b] } = none := by
      simp [validate_sync_payload, payloadSizeErrors_eq, limits, collectionSize, settings]
    have hb : processBatch none now u { browserSessions := [b] } ⟨db, {}, [], 0⟩ =
        Except.ok { db := db, counts := {}, errors := [], ops := 1 } := by
      rw [processBatch_sessions_only rfl rfl rfl rfl rfl rfl rfl rfl rfl]
      show runItems (processBrowserSession none u) [b] ⟨db, {}, [], 0⟩ = _
      rw [runItems_cons_ok (processBS_hit hr)]
      rfl
    exact sync_all_of_processBatch hval hb

/-- **C4 witness**: user 1 inserts `s1` as a video session even though user
0 owns a video session with the same external id; and a browser session
with one stored match is skipped. -/
theorem dedup_key_scoping_witness :
    sync_all none 0 0 1 { videoSessions := [exVideoSession] }
        { video_sessions := [mkVideoSessionRow 0 exVideoSession] } =
      SyncOutcome.ok
        { video_sessions := [mkVideoSessionRow 0 exVideoSession] ++
            [mkVideoSessionRow 1 exVideoSession] }
        { success := true, syncedCounts := { videoSessions := 1 }, lastSyncTime := 0,
          errors := [] } ∧
    sync_all none 0 0 1 { browserSessions := [exBrowserSession] } exStoreOtherUser =
      SyncOutcome.ok exStoreOtherUser
        { success := true, syncedCounts := {}, lastSyncTime := 0, errors := [] } :=
  ⟨dedup_key_scoping.1 0 0 1 exVideoSession
      { video_sessions := [mkVideoSessionRow 0 exVideoSession] } rfl,
   dedup_key_scoping.2 0 0 1 exBrowserSession exStoreOtherUser rfl⟩

/-- **C4 counterexample**: user 1 submits browser session `s1` while the
store holds only user 0's row with that external id; the call succeeds but
the store is returned unchanged — the item is *not* inserted for the
requesting user, contradicting the claim. -/
theorem browser_session_cross_user_counterexample :
    (sync_all none 0 0 1 { browserSessions := [exBrowserSession] } exStoreOtherUser).store =
      exStoreOtherUser ∧
    (∀ r ∈ exStoreOtherUser.browser_sessions, r.user_id = 0) ∧
    (0 : UserId) ≠ 1 := by
  refine ⟨rfl, ?_, by decide⟩
  intro r hr
  simp only [exStoreOtherUser, List.mem_singleton] at hr
  rw [hr]
  rfl

/-! ## C5: handling of URL fields with a bad scheme -/

/-- **C5** (corrected).  Two different mechanisms exist.  The
`sanitize_url` helper really does null out a non-empty value that does not
start with `http://` or `https://` — but it is never invoked on the sync
path.  The URL that *is* validated, `ProductiveUrlCreate.url`, instead
raises in its field validator, which rejects the whole request as a
validation failure rather than dropping the value. -/
theorem url_scheme_sanitize_vs_validate :
    (∀ (s u' : String), sanitize_string (some s) 2000 = some u' → u' ≠ "" →
      (pyStartswith u' "http://" || pyStartswith u' "https://") = false →
      sanitize_url (some s) = none) ∧
    (∀ (id url title : String) (addedAt : Int),
      id.length ≤ 64 → url.length ≤ 2000 → title.length ≤ 255 → 0 ≤ addedAt →
      (pyStartswith url "http://" || pyStartswith url "https://") = false →
      ProductiveUrlCreate.build id url title addedAt =
        Except.error "URL must start with http:// or https://") := by
  constructor
  · intro s u' hs hne hsw
    unfold sanitize_url
    simp only [hs]
    simp [hsw, hne]
  · intro id url title addedAt hid hurl htitle haddedAt hsw
    unfold ProductiveUrlCreate.build
    rw [if_neg (by omega), if_neg (by omega), if_neg (by omega), if_neg (by omega)]
    unfold ProductiveUrlCreate.validate_url
    rw [if_pos (by simp [hsw])]

/-- **C5 witness**: `ftp://example.com` is nulled by the (unused) helper
and rejected by the productive-URL field validator. -/
theorem url_scheme_sanitize_vs_validate_witness :
    sanitize_url (some "ftp://example.com") = none ∧
    ProductiveUrlCreate.build "u1" "ftp://example.com" "Example" 0 =
      Except.error "URL must start with http:// or https://" :=
  ⟨url_scheme_sanitize_vs_validate.1 "ftp://example.com" "ftp://example.com" rfl
      (by decide) (by decide),
   url_scheme_sanitize_vs_validate.2 "u1" "ftp://example.com" "Example" 0
      (by decide) (by decide) (by decide) (by decide) (by decide)⟩

/-- **C5 counterexample**: a request whose `productiveUrls` collection
carries the non-HTTP URL `ftp://example.com` fails request validation with
the field-validator error — the request *is* rejected because of a bad URL
scheme, and the offending value is not nulled out and processed. -/
theorem url_scheme_rejects_request_counterexample :
    parseProductiveUrls [("u1", "ftp://example.com", "Example", 0)] =
      Except.error "URL must start with http:// or https://" := rfl

/-! ## C9: the weekly comparison formula -/

/-- **C9** (corrected).  `change_percent` is computed over the *truncated
minutes* `int(seconds / 60)` of the two windows — rounded to one decimal —
not over the summed seconds; it is `0.0` whenever the previous week's
minutes are zero, and in particular whenever the previous week's total
seconds are zero. -/
theorem weekly_change_percent_truncated_minutes (user : UserId) (today : Date)
    (rows : List DailyStatsRow) :
    (get_weekly_comparison user today rows).this_week_minutes =
      pyTrunc ((weeklySumSeconds user (today.toOrdinal - 6) today.toOrdinal rows : ℚ) / 60) ∧
    (get_weekly_comparison user today rows).prev_week_minutes =
      pyTrunc ((weeklySumSeconds user (today.toOrdinal - 13) (today.toOrdinal - 7) rows : ℚ) / 60) ∧
    (weeklySumSeconds user (today.toOrdinal - 13) (today.toOrdinal - 7) rows = 0 →
      (get_weekly_comparison user today rows).change_percent = 0) ∧
    (0 < (get_weekly_comparison user today rows).prev_week_minutes →
      (get_weekly_comparison user today rows).change_percent =
        pyRound1
          ((((get_weekly_comparison user today rows).this_week_minutes : ℚ) -
              ((get_weekly_comparison user today rows).prev_week_minutes : ℚ)) /
            ((get_weekly_comparison user today rows).prev_week_minutes : ℚ) * 100)) := by
  have hch : (get_weekly_comparison user today rows).change_percent =
      if 0 < (get_weekly_comparison user today rows).prev_week_minutes then
        pyRound1
          ((((get_weekly_comparison user today rows).this_week_minutes : ℚ) -
              ((get_weekly_comparison user today rows).prev_week_minutes : ℚ)) /
            ((get_weekly_comparison user today rows).prev_week_minutes : ℚ) * 100)
      else 0 := rfl
  refine ⟨rfl, rfl, ?_, ?_⟩
  · intro hzero
    have hpm : (get_weekly_comparison user today rows).prev_week_minutes = 0 := by
      show pyTrunc ((weeklySumSeconds user (today.toOrdinal - 13) (today.toOrdinal - 7) rows : ℚ) / 60) = 0
      rw [hzero]
      with_unfolding_all rfl
    rw [hch, hpm]
    norm_num
  · intro hpos
    rw [hch, if_pos hpos]

/-- **C9 witness**: zero previous-week seconds give `change_percent = 0.0`,
and with 600 s this week versus 180 s last week the change is computed over
the truncated minutes. -/
theorem weekly_change_percent_truncated_minutes_witness :
    (get_weekly_comparison 7 ⟨2024, 1, 20⟩ [exStatsRow 7 ⟨2024, 1, 20⟩ 90]).change_percent = 0 ∧
    (get_weekly_comparison 7 ⟨2024, 1, 20⟩
        [exStatsRow 7 ⟨2024, 1, 20⟩ 600, exStatsRow 7 ⟨2024, 1, 10⟩ 180]).change_percent =
      pyRound1
        ((((get_weekly_comparison 7 ⟨2024, 1, 20⟩
              [exStatsRow 7 ⟨2024, 1, 20⟩ 600, exStatsRow 7 ⟨2024, 1, 10⟩ 180]).this_week_minutes : ℚ) -
            ((get_weekly_comparison 7 ⟨2024, 1, 20⟩
              [exStatsRow 7 ⟨2024, 1, 20⟩ 600, exStatsRow 7 ⟨2024, 1, 10⟩ 180]).prev_week_minutes : ℚ)) /
          ((get_weekly_comparison 7 ⟨2024, 1, 20⟩
              [exStatsRow 7 ⟨2024, 1, 20⟩ 600, exStatsRow 7 ⟨2024, 1, 10⟩ 180]).prev_week_minutes : ℚ) * 100) :=
  ⟨(weekly_change_percent_truncated_minutes 7 ⟨2024, 1, 20⟩
      [exStatsRow 7 ⟨2024, 1, 20⟩ 90]).2.2.1 (by decide),
   (weekly_change_percent_truncated_minutes 7 ⟨2024, 1, 20⟩
      [exStatsRow 7 ⟨2024, 1, 20⟩ 600, exStatsRow 7 ⟨2024, 1, 10⟩ 180]).2.2.2
      (by with_unfolding_all decide)⟩

/-- **C9 counterexample**: with 90 s in the trailing window and 60 s in the
preceding one, the spec formula over seconds demands `50.0`, but the code
truncates both windows to one minute and returns `0.0` — and the previous
total is not `0`, so the zero edge case does not apply. -/
theorem weekly_change_percent_counterexample :
    weeklySumSeconds 7 ((⟨2024, 1, 20⟩ : Date).toOrdinal - 6) (⟨2024, 1, 20⟩ : Date).toOrdinal
        [exStatsRow 7 ⟨2024, 1, 20⟩ 90, exStatsRow 7 ⟨2024, 1, 10⟩ 60] = 90 ∧
    weeklySumSeconds 7 ((⟨2024, 1, 20⟩ : Date).toOrdinal - 13)
        ((⟨2024, 1, 20⟩ : Date).toOrdinal - 7)
        [exStatsRow 7 ⟨2024, 1, 20⟩ 90, exStatsRow 7 ⟨2024, 1, 10⟩ 60] = 60 ∧
    specChangePercent 90 60 = 50 ∧
    (get_weekly_comparison 7 ⟨2024, 1, 20⟩
        [exStatsRow 7 ⟨2024, 1, 20⟩ 90, exStatsRow 7 ⟨2024, 1, 10⟩ 60]).change_percent = 0 ∧
    (get_weekly_comparison 7 ⟨2024, 1, 20⟩
        [exStatsRow 7 ⟨2024, 1, 20⟩ 90, exStatsRow 7 ⟨2024, 1, 10⟩ 60]).change_percent ≠
      specChangePercent 90 60 := by
  refine ⟨by decide, by decide, by norm_num [specChangePercent],
    by with_unfolding_all rfl, ?_⟩
  intro h
  rw [show specChangePercent 90 60 = 50 by norm_num [specChangePercent]] at h
  rw [show (get_weekly_comparison 7 ⟨2024, 1, 20⟩
      [exStatsRow 7 ⟨2024, 1, 20⟩ 90, exStatsRow 7 ⟨2024, 1, 10⟩ 60]).change_percent = 0
    by with_unfolding_all rfl] at h
  norm_num at h

/-! ## Small-step lemmas for the daily-stats, append-only and URL phases -/

theorem processDS_bad {now : Time} {u : UserId} {kv : String × DailyStatsCreate} {w : Work}
    (hd : Date.fromisoformat kv.1 = none) :
    processDailyStat none now u kv w =
      Except.ok { w with errors := w.errors ++ [invalidDateMsg kv.1] } := by
  simp [processDailyStat, hd]

theorem processDS_good {now : Time} {u : UserId} {kv : String × DailyStatsCreate} {w : Work}
    {d : Date} (hd : Date.fromisoformat kv.1 = some d) :
    processDailyStat none now u kv w =
      Except.ok { w with
        db.daily_stats := upsertDailyStats u d kv.2 now w.db.daily_stats,
        counts.dailyStats := w.counts.dailyStats + 1,
        ops := w.ops + 1 } := by
  simp [processDailyStat, hd, execOp_none]

theorem runDS_effect {now : Time} {u : UserId} {entries : List (String × DailyStatsCreate)}
    {w w' : Work}
    (hrun : runItems (processDailyStat none now u) entries w = Except.ok w') :
    w'.db = { w.db with daily_stats := w'.db.daily_stats } ∧
    w'.counts = { w.counts with dailyStats := w'.counts.dailyStats } ∧
    w'.errors = w.errors ++
      (entries.filter fun kv => (Date.fromisoformat kv.1).isNone).map
        (fun kv => invalidDateMsg kv.1) ∧
    w'.counts.dailyStats = w.counts.dailyStats +
      (entries.filter fun kv => (Date.fromisoformat kv.1).isSome).length := by
  induction entries generalizing w with
  | nil =>
    cases hrun
    exact ⟨rfl, rfl, by simp, by simp⟩
  | cons kv rest ih =>
    cases hd : Date.fromisoformat kv.1 with
    | none =>
      rw [runItems_cons_ok (processDS_bad hd)] at hrun
      have h := ih hrun
      refine ⟨h.1, h.2.1, ?_, ?_⟩
      · rw [h.2.2.1]
        simp [hd, List.filter_cons]
      · rw [h.2.2.2]
        simp [hd, List.filter_cons]
    | some d =>
      rw [runItems_cons_ok (processDS_good hd)] at hrun
      have h := ih hrun
      refine ⟨h.1, h.2.1, ?_, ?_⟩
      · rw [h.2.2.1]
        simp [hd, List.filter_cons]
      · rw [h.2.2.2]
        simp only [List.filter_cons, hd, Option.isSome_some, if_true, List.length_cons]
        show w.counts.dailyStats + 1 + _ = _
        omega

theorem processPU_ok {u : UserId} {item : ProductiveUrlCreate} {w : Work} :
    processProductiveUrl none u item w =
      Except.ok { w with
        db.productive_urls :=
          if (w.db.productive_urls.filter (puKey u item.id)).isEmpty then
            w.db.productive_urls ++ [mkProductiveUrlRow u item]
          else updatePreferredProductiveUrl u item w.db.productive_urls,
        counts.productiveUrls := w.counts.productiveUrls + 1,
        ops := w.ops + 1 } := by
  rw [processProductiveUrl, execOp_none]
  by_cases hc : (w.db.productive_urls.filter (puKey u item.id)).isEmpty <;> simp [hc]

theorem runPU_frame {u : UserId} {l : List ProductiveUrlCreate} {w w' : Work}
    (hrun : runItems (processProductiveUrl none u) l w = Except.ok w') :
    w'.db = { w.db with productive_urls := w'.db.productive_urls } ∧
    w'.counts = { w.counts with productiveUrls := w'.counts.productiveUrls } ∧
    w'.errors = w.errors := by
  induction l generalizing w with
  | nil => cases hrun; exact ⟨rfl, rfl, rfl⟩
  | cons a as ih =>
    rw [runItems_cons_ok processPU_ok] at hrun
    have h := ih hrun
    exact ⟨h.1, h.2.1, h.2.2⟩

theorem runScroll_frame (u : UserId) (l : List ScrollEventCreate) (w : Work) :
    (runPure (processScrollEvent u) l w).db.daily_stats = w.db.daily_stats ∧
    (runPure (processScrollEvent u) l w).db.productive_urls = w.db.productive_urls ∧
    (runPure (processScrollEvent u) l w).errors = w.errors ∧
    (runPure (processScrollEvent u) l w).counts.dailyStats = w.counts.dailyStats := by
  induction l generalizing w with
  | nil => exact ⟨rfl, rfl, rfl, rfl⟩
  | cons e es ih => exact ih (processScrollEvent u e w)

theorem runThumb_frame (u : UserId) (l : List ThumbnailEventCreate) (w : Work) :
    (runPure (processThumbnailEvent u) l w).db.daily_stats = w.db.daily_stats ∧
    (runPure (processThumbnailEvent u) l w).db.productive_urls = w.db.productive_urls ∧
    (runPure (processThumbnailEvent u) l w).errors = w.errors ∧
    (runPure (processThumbnailEvent u) l w).counts.dailyStats = w.counts.dailyStats := by
  induction l generalizing w with
  | nil => exact ⟨rfl, rfl, rfl, rfl⟩
  | cons e es ih => exact ih (processThumbnailEvent u e w)

theorem runPage_frame (u : UserId) (l : List PageEventCreate) (w : Work) :
    (runPure (processPageEvent u) l w).db.daily_stats = w.db.daily_stats ∧
    (runPure (processPageEvent u) l w).db.productive_urls = w.db.productive_urls ∧
    (runPure (processPageEvent u) l w).errors = w.errors ∧
    (runPure (processPageEvent u) l w).counts.dailyStats = w.counts.dailyStats := by
  induction l generalizing w with
  | nil => exact ⟨rfl, rfl, rfl, rfl⟩
  | cons e es ih => exact ih (processPageEvent u e w)

theorem runWatch_frame (u : UserId) (l : List VideoWatchEventCreate) (w : Work) :
    (runPure (processVideoWatchEvent u) l w).db.daily_stats = w.db.daily_stats ∧
    (runPure (processVideoWatchEvent u) l w).db.productive_urls = w.db.productive_urls ∧
    (runPure (processVideoWatchEvent u) l w).errors = w.errors ∧
    (runPure (processVideoWatchEvent u) l w).counts.dailyStats = w.counts.dailyStats := by
  induction l generalizing w with
  | nil => exact ⟨rfl, rfl, rfl, rfl⟩
  | cons e es ih => exact ih (processVideoWatchEvent u e w)

theorem runRec_frame (u : UserId) (l : List RecommendationEventCreate) (w : Work) :
    (runPure (processRecommendationEvent u) l w).db.daily_stats = w.db.daily_stats ∧
    (runPure (processRecommendationEvent u) l w).db.productive_urls = w.db.productive_urls ∧
    (runPure (processRecommendationEvent u) l w).errors = w.errors ∧
    (runPure (processRecommendationEvent u) l w).counts.dailyStats = w.counts.dailyStats := by
  induction l generalizing w with
  | nil => exact ⟨rfl, rfl, rfl, rfl⟩
  | cons e es ih => exact ih (processRecommendationEvent u e w)

theorem runIntervention_frame (u : UserId) (l : List InterventionEventCreate) (w : Work) :
    (runPure (processInterventionEvent u) l w).db.daily_stats = w.db.daily_stats ∧
    (runPure (processInterventionEvent u) l w).db.productive_urls = w.db.productive_urls ∧
    (runPure (processInterventionEvent u) l w).errors = w.errors ∧
    (runPure (processInterventionEvent u) l w).counts.dailyStats = w.counts.dailyStats := by
  induction l generalizing w with
  | nil => exact ⟨rfl, rfl, rfl, rfl⟩
  | cons e es ih => exact ih (processInterventionEvent u e w)

theorem runMood_frame (u : UserId) (l : List MoodReportCreate) (w : Work) :
    (runPure (processMoodReport u) l w).db.daily_stats = w.db.daily_stats ∧
    (runPure (processMoodReport u) l w).db.productive_urls = w.db.productive_urls ∧
    (runPure (processMoodReport u) l w).errors = w.errors ∧
    (runPure (processMoodReport u) l w).counts.dailyStats = w.counts.dailyStats := by
  induction l generalizing w with
  | nil => exact ⟨rfl, rfl, rfl, rfl⟩
  | cons e es ih => exact ih (processMoodReport u e w)

/-- A successful batch run factors into its four fallible phases with the
seven append-only phases folded in between. -/
theorem processBatch_ok_destruct {now : Time} {u : UserId} {data : SyncData} {w w0 : Work}
    (hb : processBatch none now u data w = Except.ok w0) :
    ∃ wa wb wc,
      runItems (processVideoSession none u) data.videoSessions w = Except.ok wa ∧
      runItems (processBrowserSession none u) data.browserSessions wa = Except.ok wb ∧
      runItems (processDailyStat none now u) data.dailyStats wb = Except.ok wc ∧
      runItems (processProductiveUrl none u) data.productiveUrls
        (runPure (processMoodReport u) data.moodReports
          (runPure (processInterventionEvent u) data.interventionEvents
            (runPure (processRecommendationEvent u) data.recommendationEvents
              (runPure (processVideoWatchEvent u) data.videoWatchEvents
                (runPure (processPageEvent u) data.pageEvents
                  (runPure (processThumbnailEvent u) data.thumbnailEvents
                    (runPure (processScrollEvent u) data.scrollEvents wc))))))) =
        Except.ok w0 := by
  unfold processBatch at hb
  cases hvs : runItems (processVideoSession none u) data.videoSessions w with
  | error e => rw [hvs] at hb; exact absurd hb (by simp)
  | ok wa =>
    rw [hvs] at hb
    dsimp only at hb
    cases hbs : runItems (processBrowserSession none u) data.browserSessions wa with
    | error e => rw [hbs] at hb; exact absurd hb (by simp)
    | ok wb =>
      rw [hbs] at hb
      dsimp only at hb
      cases hds : runItems (processDailyStat none now u) data.dailyStats wb with
      | error e => rw [hds] at hb; exact absurd hb (by simp)
      | ok wc =>
        rw [hds] at hb
        dsimp only at hb
        exact ⟨wa, wb, wc, rfl, hbs, hds, hb⟩

/-! ## C7: an unparsable dailyStats date key is a soft error -/

/-- **C7** (confirmed).  When a sync call succeeds, every `dailyStats`
entry whose key is not a parsable ISO date contributed the per-item message
to the response's error list; the `dailyStats` processed count equals the
number of entries with parsable keys (the bad entry is not processed and
not counted); and the response still reports success. -/
theorem invalid_daily_date_soft_error
    (now : Time) (nowMs : Int) (u : UserId) (data : SyncData) (db db' : Store)
    (resp : SyncResponse)
    (h : sync_all none now nowMs u data db = SyncOutcome.ok db' resp) :
    resp.success = true ∧
    resp.syncedCounts.dailyStats =
      (data.dailyStats.filter fun kv => (Date.fromisoformat kv.1).isSome).length ∧
    ∀ kv ∈ data.dailyStats, Date.fromisoformat kv.1 = none →
      invalidDateMsg kv.1 ∈ resp.errors := by
  obtain ⟨hval, w0, hb, hdb, hresp⟩ := sync_all_ok_destruct h
  obtain ⟨wa, wb, wc, hvs, hbs, hds, hpu⟩ := processBatch_ok_destruct hb
  have hvframe := runVS_frame hvs
  have hbframe := runBS_frame hbs
  have hdeff := runDS_effect hds
  have hpuframe := runPU_frame hpu
  have f1 := runScroll_frame u data.scrollEvents wc
  have f2 := runThumb_frame u data.thumbnailEvents
    (runPure (processScrollEvent u) data.scrollEvents wc)
  have f3 := runPage_frame u data.pageEvents
    (runPure (processThumbnailEvent u) data.thumbnailEvents
      (runPure (processScrollEvent u) data.scrollEvents wc))
  have f4 := runWatch_frame u data.videoWatchEvents
    (runPure (processPageEvent u) data.pageEvents
      (runPure (processThumbnailEvent u) data.thumbnailEvents
        (runPure (processScrollEvent u) data.scrollEvents wc)))
  have f5 := runRec_frame u data.recommendationEvents
    (runPure (processVideoWatchEvent u) data.videoWatchEvents
      (runPure (processPageEvent u) data.pageEvents
        (runPure (processThumbnailEvent u) data.thumbnailEvents
          (runPure (processScrollEvent u) data.scrollEvents wc))))
  have f6 := runIntervention_frame u data.interventionEvents
    (runPure (processRecommendationEvent u) data.recommendationEvents
      (runPure (processVideoWatchEvent u) data.videoWatchEvents
        (runPure (processPageEvent u) data.pageEvents
          (runPure (processThumbnailEvent u) data.thumbnailEvents
            (runPure (processScrollEvent u) data.scrollEvents wc)))))
  have f7 := runMood_frame u data.moodReports
    (runPure (processInterventionEvent u) data.interventionEvents
      (runPure (processRecommendationEvent u) data.recommendationEvents
        (runPure (processVideoWatchEvent u) data.videoWatchEvents
          (runPure (processPageEvent u) data.pageEvents
            (runPure (processThumbnailEvent u) data.thumbnailEvents
              (runPure (processScrollEvent u) data.scrollEvents wc))))))
  have ea : wa.errors = [] := hvframe.2.2
  have eb : wb.errors = [] := by rw [hbframe.2.2, ea]
  have ec : wc.errors =
      (data.dailyStats.filter fun kv => (Date.fromisoformat kv.1).isNone).map
        (fun kv => invalidDateMsg kv.1) := by
    rw [hdeff.2.2.1, eb]
    simp
  have e0 : w0.errors =
      (data.dailyStats.filter fun kv => (Date.fromisoformat kv.1).isNone).map
        (fun kv => invalidDateMsg kv.1) := by
    rw [hpuframe.2.2, f7.2.2.1, f6.2.2.1, f5.2.2.1, f4.2.2.1, f3.2.2.1, f2.2.2.1,
      f1.2.2.1, ec]
  have ca : wa.counts.dailyStats = 0 := by rw [hvframe.2.1]
  have cb : wb.counts.dailyStats = 0 := by
    rw [hbframe.2.1]
    exact ca
  have cc : wc.counts.dailyStats =
      (data.dailyStats.filter fun kv => (Date.fromisoformat kv.1).isSome).length := by
    rw [hdeff.2.2.2, cb]
    simp
  have c0 : w0.counts.dailyStats =
      (data.dailyStats.filter fun kv => (Date.fromisoformat kv.1).isSome).length := by
    have : w0.counts.dailyStats =
        (runPure (processMoodReport u) data.moodReports
          (runPure (processInterventionEvent u) data.interventionEvents
            (runPure (processRecommendationEvent u) data.recommendationEvents
              (runPure (processVideoWatchEvent u) data.videoWatchEvents
                (runPure (processPageEvent u) data.pageEvents
                  (runPure (processThumbnailEvent u) data.thumbnailEvents
                    (runPure (processScrollEvent u) data.scrollEvents wc))))))).counts.dailyStats := by
      rw [hpuframe.2.1]
    rw [this, f7.2.2.2, f6.2.2.2, f5.2.2.2, f4.2.2.2, f3.2.2.2, f2.2.2.2, f1.2.2.2, cc]
  subst hresp
  refine ⟨rfl, c0, ?_⟩
  intro kv hkv hno
  show invalidDateMsg kv.1 ∈ w0.errors
  rw [e0]
  exact List.mem_map.mpr ⟨kv, List.mem_filter.mpr ⟨hkv, by simp [hno]⟩, rfl⟩

/-- **C7 witness**: a batch with the unparsable key `bad-date` and the
valid key `2024-01-01` commits, reports success, counts one processed
daily entry, and records the per-item error message. -/
theorem invalid_daily_date_soft_error_witness :
    ({ success := true, syncedCounts := { dailyStats := 1 }, lastSyncTime := 5,
        errors := [invalidDateMsg "bad-date"] } : SyncResponse).success = true ∧
    ({ success := true, syncedCounts := { dailyStats := 1 }, lastSyncTime := 5,
        errors := [invalidDateMsg "bad-date"] } : SyncResponse).syncedCounts.dailyStats =
      (exDailyBatch.dailyStats.filter fun kv => (Date.fromisoformat kv.1).isSome).length ∧
    invalidDateMsg "bad-date" ∈
      ({ success := true, syncedCounts := { dailyStats := 1 }, lastSyncTime := 5,
          errors := [invalidDateMsg "bad-date"] } : SyncResponse).errors := by
  have h := invalid_daily_date_soft_error 5 5 7 exDailyBatch {}
    { daily_stats := [mkDailyStatsRow 7 ⟨2024, 1, 1⟩ (exDailyStats 100) 5] }
    { success := true, syncedCounts := { dailyStats := 1 }, lastSyncTime := 5,
      errors := [invalidDateMsg "bad-date"] }
    rfl
  exact ⟨h.1, h.2.1, h.2.2 ("bad-date", exDailyStats 1) (by simp [exDailyBatch]) rfl⟩

/-! ## C8: the productive-URL upsert -/

/-- `mapFirst` rewrites exactly the first element satisfying `p`. -/
theorem mapFirst_decomp {α} {p : α → Bool} (f : α → α) {l : List α}
    (h : l.filter p ≠ []) :
    ∃ pre a post, l = pre ++ a :: post ∧ p a = true ∧ (∀ x ∈ pre, p x = false) ∧
      mapFirst p f l = pre ++ f a :: post := by
  induction l with
  | nil => simp at h
  | cons b bs ih =>
    cases hp : p b with
    | true => exact ⟨[], b, bs, rfl, hp, by simp, by simp [mapFirst, hp]⟩
    | false =>
      have h' : bs.filter p ≠ [] := by simpa [List.filter_cons, hp] using h
      obtain ⟨pre, a, post, hl, hpa, hpre, hmap⟩ := ih h'
      refine ⟨b :: pre, a, post, by simp [hl], hpa, ?_, by simp [mapFirst, hp, hmap]⟩
      intro x hx
      rcases List.mem_cons.mp hx with rfl | hx
      · exact hp
      · exact hpre x hx

/-- **C8** (confirmed).  A one-item `productiveUrls` batch that succeeds is
counted as processed; when no row matches `(user, external id)` a fresh row
is inserted; when a match exists, no new row is inserted — instead the
preferred matching row (the first non-deleted match when one exists,
otherwise the first match) has its `url` and `title` overwritten and its
soft-delete marker cleared, every other row untouched. -/
theorem productive_url_upsert_resurrects
    (now : Time) (nowMs : Int) (u : UserId) (item : ProductiveUrlCreate)
    (db db' : Store) (resp : SyncResponse)
    (h : sync_all none now nowMs u { productiveUrls := [item] } db =
      SyncOutcome.ok db' resp) :
    resp.syncedCounts.productiveUrls = 1 ∧
    (db.productive_urls.filter (puKey u item.id) = [] →
      db'.productive_urls = db.productive_urls ++ [mkProductiveUrlRow u item]) ∧
    (db.productive_urls.filter (puKey u item.id) ≠ [] →
      ∃ pre r post,
        db.productive_urls = pre ++ r :: post ∧
        puKey u item.id r = true ∧
        db'.productive_urls =
          pre ++ { r with url := item.url, title := item.title, deleted_at := none } :: post ∧
        (((db.productive_urls.filter (puKey u item.id)).any fun x =>
            x.deleted_at = none) = true →
          r.deleted_at = none ∧
          ∀ x ∈ pre, (puKey u item.id x && decide (x.deleted_at = none)) = false) ∧
        (((db.productive_urls.filter (puKey u item.id)).any fun x =>
            x.deleted_at = none) = false →
          ∀ x ∈ pre, puKey u item.id x = false)) := by
  obtain ⟨hval, w0, hb, hdb, hresp⟩ := sync_all_ok_destruct h
  have hb' : runItems (processProductiveUrl none u) [item] ⟨db, {}, [], 0⟩ =
      Except.ok w0 := hb
  rw [runItems_cons_ok processPU_ok, runItems_nil] at hb'
  injection hb' with hw0
  subst hw0
  subst hdb
  subst hresp
  refine ⟨rfl, ?_, ?_⟩
  · intro hempty
    show (if (db.productive_urls.filter (puKey u item.id)).isEmpty then
        db.productive_urls ++ [mkProductiveUrlRow u item]
      else updatePreferredProductiveUrl u item db.productive_urls) = _
    rw [hempty]
    rfl
  · intro hne
    have hfe : (db.productive_urls.filter (puKey u item.id)).isEmpty = false := by
      cases hfe : (db.productive_urls.filter (puKey u item.id)).isEmpty with
      | false => rfl
      | true => exact absurd (List.isEmpty_iff.mp hfe) hne
    show ∃ pre r post, _ ∧ _ ∧
      (if (db.productive_urls.filter (puKey u item.id)).isEmpty then
          db.productive_urls ++ [mkProductiveUrlRow u item]
        else updatePreferredProductiveUrl u item db.productive_urls) = _ ∧ _ ∧ _
    rw [hfe]
    show ∃ pre r post, _ ∧ _ ∧
      updatePreferredProductiveUrl u item db.productive_urls = _ ∧ _ ∧ _
    unfold updatePreferredProductiveUrl
    rcases Bool.eq_false_or_eq_true
        ((db.productive_urls.filter (puKey u item.id)).any fun r =>
          decide (r.deleted_at = none)) with hany | hany
    · rw [if_pos hany]
      obtain ⟨x, hxf, hxd⟩ := List.any_eq_true.mp hany
      have hxmem : x ∈ db.productive_urls.filter
          (fun r => puKey u item.id r && decide (r.deleted_at = none)) := by
        rcases List.mem_filter.mp hxf with ⟨hxl, hxp⟩
        exact List.mem_filter.mpr ⟨hxl, by simp [hxp, hxd]⟩
      obtain ⟨pre, a, post, hl, hpa, hpre, hmap⟩ :=
        mapFirst_decomp (resurrectUpdate item) (List.ne_nil_of_mem hxmem)
      obtain ⟨hpk, hpd⟩ : puKey u item.id a = true ∧ decide (a.deleted_at = none) = true := by
        simpa using hpa
      refine ⟨pre, a, post, hl, hpk, by rw [hmap]; rfl, ?_, ?_⟩
      · intro _
        exact ⟨of_decide_eq_true hpd, hpre⟩
      · intro hcontra
        exact Bool.noConfusion (hany.symm.trans hcontra)
    · rw [if_neg (fun hq => Bool.noConfusion (hany.symm.trans hq))]
      obtain ⟨pre, a, post, hl, hpa, hpre, hmap⟩ :=
        mapFirst_decomp (resurrectUpdate item) hne
      refine ⟨pre, a, post, hl, hpa, by rw [hmap]; rfl, ?_, ?_⟩
      · intro hcontra
        exact Bool.noConfusion (hany.symm.trans hcontra)
      · intro _
        exact hpre

/-- **C8 witness**: resyncing the soft-deleted bookmark `u1` resurrects it
in place — url and title overwritten, deleted marker cleared, no new row. -/
theorem productive_url_upsert_resurrects_witness :
    ({ success := true, syncedCounts := { productiveUrls := 1 }, lastSyncTime := 0,
        errors := [] } : SyncResponse).syncedCounts.productiveUrls = 1 ∧
    ∃ pre r post,
      exUrlStore.productive_urls = pre ++ r :: post ∧
      puKey 7 exUrlItem.id r = true ∧
      ({ productive_urls := [resurrectUpdate exUrlItem exDeletedUrlRow] } : Store).productive_urls =
        pre ++ ({ r with url := exUrlItem.url, title := exUrlItem.title, deleted_at := none } :: post) ∧
      (((exUrlStore.productive_urls.filter (puKey 7 exUrlItem.id)).any fun x =>
          x.deleted_at = none) = true →
        r.deleted_at = none ∧
        ∀ x ∈ pre, (puKey 7 exUrlItem.id x && decide (x.deleted_at = none)) = false) ∧
      (((exUrlStore.productive_urls.filter (puKey 7 exUrlItem.id)).any fun x =>
          x.deleted_at = none) = false →
        ∀ x ∈ pre, puKey 7 exUrlItem.id x = false) := by
  have h := productive_url_upsert_resurrects 0 0 7 exUrlItem exUrlStore
    { productive_urls := [resurrectUpdate exUrlItem exDeletedUrlRow] }
    { success := true, syncedCounts := { productiveUrls := 1 }, lastSyncTime := 0,
      errors := [] }
    rfl
  exact ⟨h.1, h.2.2 (by simp [exUrlStore, exDeletedUrlRow, exUrlItem, puKey])⟩

/-! ## C3: last-write-wins upsert for daily stats -/

theorem filter_eq_nil_of_any_eq_false {α} {p : α → Bool} {l : List α}
    (h : l.any p = false) : l.filter p = [] := by
  induction l with
  | nil => rfl
  | cons a as ih =>
    simp only [List.any_cons, Bool.or_eq_false_iff] at h
    simp [List.filter_cons, h.1, ih h.2]

/-- The upserted column image matches exactly its own `(user, date)` key. -/
theorem dsKey_mk (u u' : UserId) (d d' : Date) (s : DailyStatsCreate) (now : Time) :
    dsKey u' d' (mkDailyStatsRow u d s now) = decide (u = u' ∧ d = d') := by
  simp [dsKey, mkDailyStatsRow]

/-- After the upsert, the rows keyed `(u, d)` are exactly the fresh column
image (primary-key precondition: at most one row held that key before). -/
theorem upsertDailyStats_self {u : UserId} {d : Date} {s : DailyStatsCreate} {now : Time}
    {rows : List DailyStatsRow}
    (hlen : (rows.filter (dsKey u d)).length ≤ 1) :
    (upsertDailyStats u d s now rows).filter (dsKey u d) = [mkDailyStatsRow u d s now] := by
  unfold upsertDailyStats
  rcases Bool.eq_false_or_eq_true (rows.any (dsKey u d)) with hany | hany
  · rw [if_pos hany]
    obtain ⟨x, hxl, hxp⟩ := List.any_eq_true.mp hany
    have hne : rows.filter (dsKey u d) ≠ [] :=
      List.ne_nil_of_mem (List.mem_filter.mpr ⟨hxl, hxp⟩)
    obtain ⟨pre, a, post, hl, hpa, hpre, hmap⟩ :=
      mapFirst_decomp (fun _ => mkDailyStatsRow u d s now) hne
    have hfpre : pre.filter (dsKey u d) = [] :=
      filter_eq_nil_of_any_eq_false (by
        rw [List.any_eq_false]
        intro x hx
        rw [hpre x hx]
        simp)
    have hfpost : post.filter (dsKey u d) = [] := by
      have : rows.filter (dsKey u d) = a :: post.filter (dsKey u d) := by
        rw [hl, List.filter_append, hfpre, List.filter_cons, if_pos hpa]
        rfl
      rw [this] at hlen
      simp only [List.length_cons] at hlen
      exact List.eq_nil_of_length_eq_zero (by omega)
    rw [hmap, List.filter_append, hfpre, List.filter_cons]
    rw [if_pos (by simp [dsKey_mk])]
    rw [hfpost]
    rfl
  · rw [if_neg (fun hq => Bool.noConfusion (hany.symm.trans hq))]
    rw [List.filter_append, filter_eq_nil_of_any_eq_false hany]
    simp [dsKey_mk]

/-- The upsert keyed `(u, d)` leaves rows of every other key untouched. -/
theorem upsertDailyStats_other {u u' : UserId} {d d' : Date} {s : DailyStatsCreate}
    {now : Time} {rows : List DailyStatsRow}
    (hne : ¬(u = u' ∧ d = d')) :
    (upsertDailyStats u d s now rows).filter (dsKey u' d') = rows.filter (dsKey u' d') := by
  unfold upsertDailyStats
  rcases Bool.eq_false_or_eq_true (rows.any (dsKey u d)) with hany | hany
  · rw [if_pos hany]
    obtain ⟨x, hxl, hxp⟩ := List.any_eq_true.mp hany
    have hfne : rows.filter (dsKey u d) ≠ [] :=
      List.ne_nil_of_mem (List.mem_filter.mpr ⟨hxl, hxp⟩)
    obtain ⟨pre, a, post, hl, hpa, hpre, hmap⟩ :=
      mapFirst_decomp (fun _ => mkDailyStatsRow u d s now) hfne
    have hka : dsKey u' d' a = false := by
      rcases of_decide_eq_true hpa with ⟨hau, had⟩
      simp [dsKey, hau, had, hne]
    have hkm : dsKey u' d' (mkDailyStatsRow u d s now) = false := by
      simp [dsKey_mk, hne]
    rw [hmap, hl, List.filter_append, List.filter_append, List.filter_cons,
      List.filter_cons, hka, hkm]
    rfl
  · rw [if_neg (fun hq => Bool.noConfusion (hany.symm.trans hq))]
    rw [List.filter_append]
    have hnil : List.filter (dsKey u' d') [mkDailyStatsRow u d s now] = [] := by
      simp [dsKey_mk, hne]
    rw [hnil, List.append_nil]

/-- Running the daily-stats phase for another user changes none of that
user's daily rows. -/
theorem lastDailyEntryIn_cons_some {d : Date} {kv : String × DailyStatsCreate}
    {rest : List (String × DailyStatsCreate)} {s : DailyStatsCreate}
    (h : lastDailyEntryIn d rest = some s) :
    lastDailyEntryIn d (kv :: rest) = some s := by
  show (match lastDailyEntryIn d rest with
    | some s => some s
    | none => if Date.fromisoformat kv.1 = some d then some kv.2 else none) = some s
  rw [h]

theorem lastDailyEntryIn_cons_none {d : Date} {kv : String × DailyStatsCreate}
    {rest : List (String × DailyStatsCreate)}
    (h : lastDailyEntryIn d rest = none) :
    lastDailyEntryIn d (kv :: rest) =
      if Date.fromisoformat kv.1 = some d then some kv.2 else none := by
  show (match lastDailyEntryIn d rest with
    | some s => some s
    | none => if Date.fromisoformat kv.1 = some d then some kv.2 else none) = _
  rw [h]

theorem runDS_rows_other {now : Time} {u : UserId}
    {entries : List (String × DailyStatsCreate)} {w w' : Work}
    (hrun : runItems (processDailyStat none now u) entries w = Except.ok w')
    {u' : UserId} (hu : u' ≠ u) (d' : Date) :
    w'.db.daily_stats.filter (dsKey u' d') = w.db.daily_stats.filter (dsKey u' d') := by
  induction entries generalizing w with
  | nil => cases hrun; rfl
  | cons kv rest ih =>
    cases hd : Date.fromisoformat kv.1 with
    | none =>
      rw [runItems_cons_ok (processDS_bad hd)] at hrun
      have h := ih hrun
      exact h
    | some dd =>
      rw [runItems_cons_ok (processDS_good hd)] at hrun
      have h := ih hrun
      rw [h]
      exact upsertDailyStats_other (fun hc => hu hc.1.symm)

/-- Running the daily-stats phase leaves the requesting user's rows for
date `d'` at the column image of the *last* entry for `d'`, or untouched
when no entry parses to `d'`. -/
theorem runDS_rows_self {now : Time} {u : UserId}
    {entries : List (String × DailyStatsCreate)} {w w' : Work}
    (hrun : runItems (processDailyStat none now u) entries w = Except.ok w')
    (d' : Date)
    (hlen : (w.db.daily_stats.filter (dsKey u d')).length ≤ 1) :
    w'.db.daily_stats.filter (dsKey u d') =
      match lastDailyEntryIn d' entries with
      | some s => [mkDailyStatsRow u d' s now]
      | none => w.db.daily_stats.filter (dsKey u d') := by
  induction entries generalizing w with
  | nil => cases hrun; rfl
  | cons kv rest ih =>
    cases hd : Date.fromisoformat kv.1 with
    | none =>
      rw [runItems_cons_ok (processDS_bad hd)] at hrun
      have h := ih hrun (by exact hlen)
      cases hle : lastDailyEntryIn d' rest with
      | some s =>
        rw [hle] at h
        rw [lastDailyEntryIn_cons_some hle]
        exact h
      | none =>
        rw [hle] at h
        rw [lastDailyEntryIn_cons_none hle, if_neg (by simp [hd])]
        exact h
    | some dd =>
      rw [runItems_cons_ok (processDS_good hd)] at hrun
      by_cases hdd : dd = d'
      · subst hdd
        have h := ih hrun (by
          show ((upsertDailyStats u dd kv.2 now w.db.daily_stats).filter
            (dsKey u dd)).length ≤ 1
          rw [upsertDailyStats_self hlen]
          simp)
        cases hle : lastDailyEntryIn dd rest with
        | some s =>
          rw [hle] at h
          rw [lastDailyEntryIn_cons_some hle]
          exact h
        | none =>
          rw [hle] at h
          rw [lastDailyEntryIn_cons_none hle, if_pos hd]
          have h2 : w'.db.daily_stats.filter (dsKey u dd) =
              [mkDailyStatsRow u dd kv.2 now] := by
            rw [h]
            exact upsertDailyStats_self hlen
          exact h2
      · have hother : (upsertDailyStats u dd kv.2 now w.db.daily_stats).filter
            (dsKey u d') = w.db.daily_stats.filter (dsKey u d') :=
          upsertDailyStats_other (fun hc => hdd hc.2)
        have h := ih hrun (by
          show ((upsertDailyStats u dd kv.2 now w.db.daily_stats).filter
            (dsKey u d')).length ≤ 1
          rw [hother]
          exact hlen)
        cases hle : lastDailyEntryIn d' rest with
        | some s =>
          rw [hle] at h
          rw [lastDailyEntryIn_cons_some hle]
          exact h
        | none =>
          rw [hle] at h
          rw [lastDailyEntryIn_cons_none hle,
            if_neg (by rw [hd]; intro hc; exact hdd (Option.some.inj hc))]
          rw [h]
          exact hother

/-- A successful request rewrites the calling user's rows for date `d` to
the single upserted row when the payload's `dailyStats` carries an entry
for `d`, and leaves them untouched otherwise. -/
theorem sync_dailyRows {now : Time} {nowMs : Int} {u : UserId} {data : SyncData}
    {db db1 : Store} {r1 : SyncResponse}
    (h : sync_all none now nowMs u data db = SyncOutcome.ok db1 r1)
    (d : Date) (hlen : (dailyRowsFor u d db).length ≤ 1) :
    dailyRowsFor u d db1 =
      match lastDailyEntryIn d data.dailyStats with
      | some s => [mkDailyStatsRow u d s now]
      | none => dailyRowsFor u d db := by
  obtain ⟨hval, w, hb, hdb1, -⟩ := sync_all_ok_destruct h
  obtain ⟨wa, wb, wc, hvs, hbs, hds, hpu⟩ := processBatch_ok_destruct hb
  have h1 : wa.db.daily_stats = db.daily_stats := by rw [(runVS_frame hvs).1]
  have h2 : wb.db.daily_stats = wa.db.daily_stats := by rw [(runBS_frame hbs).1]
  have hlen' : (wb.db.daily_stats.filter (dsKey u d)).length ≤ 1 := by
    rw [h2, h1]; exact hlen
  have hC := runDS_rows_self hds d hlen'
  have hP : w.db.daily_stats = wc.db.daily_stats := by
    rw [(runPU_frame hpu).1]
    dsimp only
    rw [(runMood_frame u data.moodReports _).1]
    rw [(runIntervention_frame u data.interventionEvents _).1]
    rw [(runRec_frame u data.recommendationEvents _).1]
    rw [(runWatch_frame u data.videoWatchEvents _).1]
    rw [(runPage_frame u data.pageEvents _).1]
    rw [(runThumb_frame u data.thumbnailEvents _).1]
    rw [(runScroll_frame u data.scrollEvents wc).1]
  show dailyRowsFor u d db1 = _
  rw [hdb1]
  show w.db.daily_stats.filter (dsKey u d) = _
  rw [hP, hC]
  cases lastDailyEntryIn d data.dailyStats with
  | some s => rfl
  | none =>
    show wb.db.daily_stats.filter (dsKey u d) = dailyRowsFor u d db
    rw [h2, h1]
    rfl

/-- Self-user rows for date `d` after a request whose payload carries an
entry for `d`: exactly the one upserted row, stamped with this request's
server clock. -/
theorem sync_dailyRows_some {now : Time} {nowMs : Int} {u : UserId} {data : SyncData}
    {db db1 : Store} {r1 : SyncResponse}
    (h : sync_all none now nowMs u data db = SyncOutcome.ok db1 r1)
    (d : Date) (hlen : (dailyRowsFor u d db).length ≤ 1) {s : DailyStatsCreate}
    (hin : lastDailyEntryIn d data.dailyStats = some s) :
    dailyRowsFor u d db1 = [mkDailyStatsRow u d s now] := by
  have hr := sync_dailyRows h d hlen
  rw [hin] at hr
  exact hr

/-- Self-user rows for date `d` are untouched by a request whose payload
carries no entry for `d`. -/
theorem sync_dailyRows_none {now : Time} {nowMs : Int} {u : UserId} {data : SyncData}
    {db db1 : Store} {r1 : SyncResponse}
    (h : sync_all none now nowMs u data db = SyncOutcome.ok db1 r1)
    (d : Date) (hlen : (dailyRowsFor u d db).length ≤ 1)
    (hin : lastDailyEntryIn d data.dailyStats = none) :
    dailyRowsFor u d db1 = dailyRowsFor u d db := by
  have hr := sync_dailyRows h d hlen
  rw [hin] at hr
  exact hr

/-- A request never touches another user's daily-stats rows. -/
theorem sync_dailyRows_other {now : Time} {nowMs : Int} {u : UserId} {data : SyncData}
    {db db1 : Store} {r1 : SyncResponse}
    (h : sync_all none now nowMs u data db = SyncOutcome.ok db1 r1)
    {u' : UserId} (hu : u' ≠ u) (d : Date) :
    dailyRowsFor u' d db1 = dailyRowsFor u' d db := by
  obtain ⟨hval, w, hb, hdb1, -⟩ := sync_all_ok_destruct h
  obtain ⟨wa, wb, wc, hvs, hbs, hds, hpu⟩ := processBatch_ok_destruct hb
  have h1 : wa.db.daily_stats = db.daily_stats := by rw [(runVS_frame hvs).1]
  have h2 : wb.db.daily_stats = wa.db.daily_stats := by rw [(runBS_frame hbs).1]
  have hC := runDS_rows_other hds hu d
  have hP : w.db.daily_stats = wc.db.daily_stats := by
    rw [(runPU_frame hpu).1]
    dsimp only
    rw [(runMood_frame u data.moodReports _).1]
    rw [(runIntervention_frame u data.interventionEvents _).1]
    rw [(runRec_frame u data.recommendationEvents _).1]
    rw [(runWatch_frame u data.videoWatchEvents _).1]
    rw [(runPage_frame u data.pageEvents _).1]
    rw [(runThumb_frame u data.thumbnailEvents _).1]
    rw [(runScroll_frame u data.scrollEvents wc).1]
  show dailyRowsFor u' d db1 = dailyRowsFor u' d db
  rw [hdb1]
  show w.db.daily_stats.filter (dsKey u' d) = db.daily_stats.filter (dsKey u' d)
  rw [hP, hC, h2, h1]

/-- A successful request preserves the `(user_id, date)` primary-key
invariant of `daily_stats`. -/
theorem sync_DSInv {now : Time} {nowMs : Int} {u : UserId} {data : SyncData}
    {db db1 : Store} {r1 : SyncResponse}
    (h : sync_all none now nowMs u data db = SyncOutcome.ok db1 r1)
    (hinv : DSInv db) : DSInv db1 := by
  intro u' d
  by_cases hu : u' = u
  · subst hu
    cases hin : lastDailyEntryIn d data.dailyStats with
    | some s =>
      rw [sync_dailyRows_some h d (hinv u' d) hin]
      exact Nat.le_refl 1
    | none =>
      rw [sync_dailyRows_none h d (hinv u' d) hin]
      exact hinv u' d
  · rw [sync_dailyRows_other h hu d]
    exact hinv u' d

theorem lastDailyEntry_cons_some {d : Date} {c : SyncCall} {cs : List SyncCall}
    {e : Time × DailyStatsCreate} (h : lastDailyEntry d cs = some e) :
    lastDailyEntry d (c :: cs) = some e := by
  show (match lastDailyEntry d cs with
    | some e => some e
    | none =>
      match lastDailyEntryIn d c.data.dailyStats with
      | some s => some (c.now, s)
      | none => none) = some e
  rw [h]

theorem lastDailyEntry_cons_none {d : Date} {c : SyncCall} {cs : List SyncCall}
    (h : lastDailyEntry d cs = none) :
    lastDailyEntry d (c :: cs) =
      match lastDailyEntryIn d c.data.dailyStats with
      | some s => some (c.now, s)
      | none => none := by
  show (match lastDailyEntry d cs with
    | some e => some e
    | none =>
      match lastDailyEntryIn d c.data.dailyStats with
      | some s => some (c.now, s)
      | none => none) = _
  rw [h]

/-- When no request of an all-successful sequence carries an entry for
date `d`, the user's rows for `d` survive the sequence unchanged. -/
theorem runSyncs_pres (u : UserId) (d : Date) (cs : List SyncCall) :
    ∀ db : Store, DSInv db → allOk u cs db → lastDailyEntry d cs = none →
      dailyRowsFor u d (runSyncs u cs db) = dailyRowsFor u d db := by
  induction cs with
  | nil => intro db _ _ _; rfl
  | cons c cs ih =>
    intro db hinv hok hnone
    obtain ⟨hok1, hok2⟩ := hok
    cases ho : sync_all none c.now c.nowMs u c.data db with
    | httpError st dt db' =>
      rw [ho] at hok1
      exact absurd hok1 (by simp [SyncOutcome.isOk])
    | ok db1 r1 =>
      cases hcs : lastDailyEntry d cs with
      | some e =>
        rw [lastDailyEntry_cons_some hcs] at hnone
        exact Option.noConfusion hnone
      | none =>
        rw [lastDailyEntry_cons_none hcs] at hnone
        cases hin : lastDailyEntryIn d c.data.dailyStats with
        | some s =>
          rw [hin] at hnone
          exact Option.noConfusion hnone
        | none =>
          have hinv1 : DSInv db1 := sync_DSInv ho hinv
          have hok2' : allOk u cs db1 := by rw [ho] at hok2; exact hok2
          have hr : dailyRowsFor u d db1 = dailyRowsFor u d db :=
            sync_dailyRows_none ho d (hinv u d) hin
          have hres := ih db1 hinv1 hok2' hcs
          show dailyRowsFor u d
            (runSyncs u cs (sync_all none c.now c.nowMs u c.data db).store) =
            dailyRowsFor u d db
          rw [ho]
          exact hres.trans hr

/-- Last-write-wins over a sequence of all-successful requests: the rows
for date `d` end as the single row carrying the last-submitted entry,
stamped with the clock of the request that carried it. -/
theorem runSyncs_lastWins (u : UserId) (d : Date) (calls : List SyncCall) :
    ∀ db : Store, DSInv db → allOk u calls db →
      ∀ (t : Time) (s : DailyStatsCreate), lastDailyEntry d calls = some (t, s) →
        dailyRowsFor u d (runSyncs u calls db) = [mkDailyStatsRow u d s t] := by
  induction calls with
  | nil => intro db _ _ t s hlast; exact Option.noConfusion hlast
  | cons c cs ih =>
    intro db hinv hok t s hlast
    obtain ⟨hok1, hok2⟩ := hok
    cases ho : sync_all none c.now c.nowMs u c.data db with
    | httpError st dt db' =>
      rw [ho] at hok1
      exact absurd hok1 (by simp [SyncOutcome.isOk])
    | ok db1 r1 =>
      have hinv1 : DSInv db1 := sync_DSInv ho hinv
      have hok2' : allOk u cs db1 := by rw [ho] at hok2; exact hok2
      show dailyRowsFor u d
        (runSyncs u cs (sync_all none c.now c.nowMs u c.data db).store) = _
      rw [ho]
      show dailyRowsFor u d (runSyncs u cs db1) = _
      cases hcs : lastDailyEntry d cs with
      | some e =>
        rw [lastDailyEntry_cons_some hcs] at hlast
        have he := Option.some.inj hlast
        subst he
        exact ih db1 hinv1 hok2' t s hcs
      | none =>
        rw [lastDailyEntry_cons_none hcs] at hlast
        cases hin : lastDailyEntryIn d c.data.dailyStats with
        | none =>
          rw [hin] at hlast
          exact Option.noConfusion hlast
        | some s0 =>
          rw [hin] at hlast
          have hp := Option.some.inj hlast
          have ht : c.now = t := congrArg Prod.fst hp
          have hs : s0 = s := congrArg Prod.snd hp
          have hr : dailyRowsFor u d db1 = [mkDailyStatsRow u d s0 c.now] :=
            sync_dailyRows_some ho d (hinv u d) hin
          have hres := runSyncs_pres u d cs db1 hinv1 hok2' hcs
          rw [hres, hr, ht, hs]

/-- **C3** For a user and date, over any sequence of successful sync calls
on a store satisfying the `(user_id, date)` primary key, after the last
call the store holds exactly one DailyStats row keyed by (user, date),
whose columns are exactly the upsert of the last-submitted entry for that
date, stamped with the server clock of the request that carried it — each
resync fully overwrites all fields and refreshes the update timestamp. -/
theorem daily_stats_last_write_wins (u : UserId) (calls : List SyncCall) (db : Store)
    (hinv : DSInv db) (hok : allOk u calls db)
    (d : Date) (t : Time) (s : DailyStatsCreate)
    (hlast : lastDailyEntry d calls = some (t, s)) :
    dailyRowsFor u d (runSyncs u calls db) = [mkDailyStatsRow u d s t] :=
  runSyncs_lastWins u d calls db hinv hok t s hlast

/-- Witness for C3: user 7 submits `2024-01-01` with `totalSeconds = 100`,
then again with `totalSeconds = 200`; the store ends with exactly one row
for the date, carrying 200 and the second call's timestamp. -/
theorem daily_stats_last_write_wins_witness :
    dailyRowsFor 7 exDate (runSyncs 7 exStatsCalls {}) =
      [mkDailyStatsRow 7 exDate (exDailyStats 200) 2] :=
  daily_stats_last_write_wins 7 exStatsCalls {}
    (fun _ _ => by simp [dailyRowsFor])
    (by refine ⟨?_, ?_, trivial⟩ <;> rfl)
    exDate 2 (exDailyStats 200) rfl

end YoutubeTracker
